import Mathlib

/-!
# Padosi Politics: the client-side entity stores

A shallow embedding of the Pinia stores of the frontend
(`src/frontend/src/stores/complaints.js`, `src/frontend/src/stores/notifications.js`,
`src/frontend/src/stores/auth.js`), of the endpoints and the response interceptor of
`src/frontend/src/services/api.js`, and of the navigation guard of
`src/frontend/src/router/index.js`.

Modelling conventions.

* Every store action awaits exactly one backend call.  An action is a pure function of the
  store state at the call, the action's arguments and the settled backend call
  (`Except ApiError ρ`: the resolved response body, or the rejection the `catch` block
  receives).  It returns the state after the action resolves, the value the action
  returns and the requests it handed to the transport, in order.  No other action is
  interleaved between the request and its response.
* In the store actions cached entities are records held by value: the list entry and the
  current complaint for one id are two copies, as they are after `fetchComplaints` and
  `fetchComplaint`.  The namespace `Ref` follows the same functions for the two entity caches
  with object identity, for the states in which one object is stored in both.
* Entity identifiers are natural numbers, compared with `===`.
* Plain objects whose keys are data (pagination, filters, query parameters) are
  insertion-ordered key/value lists over `JSVal`.
-/

namespace Padosi

/-! ## JavaScript values and plain objects -/

/-- The JavaScript values a pagination, filter, query-parameter or profile field can hold;
`object` stands for any other object, identified by its reference, and `arr` for an array of
strings. -/
inductive JSVal where
  | undefined
  | null
  | bool (b : Bool)
  | num (n : Int)
  | nan
  | str (s : String)
  | object (ref : Nat)
  | arr (items : List String)
  deriving DecidableEq, Repr

/-- JavaScript truthiness (`!!v`): `undefined`, `null`, `false`, `0`, `NaN` and `''` are falsy. -/
def JSVal.truthy : JSVal → Bool
  | .undefined => false
  | .null => false
  | .bool b => b
  | .num n => n != 0
  | .nan => false
  | .str s => s != ""
  | .object _ => true
  | .arr _ => true

/-- A plain object: its own enumerable properties in insertion order. -/
abbrev JSObj := List (String × JSVal)

namespace JSObj

/-- Own property lookup: `none` when the key is not an own property. -/
def get : JSObj → String → Option JSVal
  | [], _ => none
  | (k0, v0) :: rest, k => if k0 = k then some v0 else get rest k

/-- Property read `o[k]`: `undefined` when the key is absent. -/
def read (o : JSObj) (k : String) : JSVal :=
  (get o k).getD JSVal.undefined

/-- Property write `o[k] = v`: overwrites in place, or appends a new key. -/
def set : JSObj → String → JSVal → JSObj
  | [], k, v => [(k, v)]
  | (k0, v0) :: rest, k, v => if k0 = k then (k0, v) :: rest else (k0, v0) :: set rest k v

/-- The statement `delete o[k]`. -/
def delete (o : JSObj) (k : String) : JSObj :=
  o.filter (fun e => decide (e.1 ≠ k))

/-- The call `Object.keys(o)`. -/
def keys (o : JSObj) : List String :=
  o.map Prod.fst

/-- Spread `...src` inside an object literal whose properties so far are `target`:
for every own key of `src`, in order, the value read from `src` is written to the target. -/
def spread (target src : JSObj) : JSObj :=
  (keys src).foldl (fun acc k => set acc k (read src k)) target

end JSObj

/-! ## Transport -/

/-- HTTP verbs used by `services/api.js`. -/
inductive Method where
  | GET | POST | PUT | PATCH | DELETE
  deriving DecidableEq, Repr

/-- One call handed to the axios instance: verb, path, query parameters and JSON body. -/
structure Request where
  method : Method
  url : String
  params : JSObj
  data : JSObj
  deriving DecidableEq, Repr

/-- The `response` of a rejected call: its status and `response.data.error`. -/
structure ErrResponse where
  status : Nat
  error : Option String
  deriving DecidableEq, Repr

/-- The rejection a `catch` block receives; `response` is absent for a network failure or a
timeout. -/
structure ApiError where
  response : Option ErrResponse
  deriving DecidableEq, Repr

/-- The expression `err.response?.data?.error || fallback`. -/
def errorMessage (err : ApiError) (fallback : String) : String :=
  match err.response with
  | some r =>
    match r.error with
    | some m => if m = "" then fallback else m
    | none => fallback
  | none => fallback

/-- The object an action returns: `{ success: true, data }` or `{ success: false, error }`. -/
inductive OpResult (α : Type) where
  | ok (data : α)
  | fail (error : String)
  deriving DecidableEq, Repr

/-- The field `success` of a returned object. -/
def OpResult.success {α : Type} : OpResult α → Bool
  | .ok _ => true
  | .fail _ => false

/-- What an action leaves behind: the store state once it resolves, its return value, and the
requests it issued. -/
structure Outcome (σ α : Type) where
  state : σ
  result : α
  requests : List Request

/-! ## Array helpers -/

/-- The call `xs.findIndex(p)`; `none` stands for `-1`. -/
def findIndex {α : Type} (p : α → Bool) : List α → Option Nat
  | [] => none
  | x :: xs => if p x then some 0 else (findIndex p xs).map (· + 1)

/-- In-place mutation `f(xs[i])` of the object stored at index `i`. -/
def mutateAt {α : Type} (f : α → α) : List α → Nat → List α
  | [], _ => []
  | x :: xs, 0 => f x :: xs
  | x :: xs, i + 1 => x :: mutateAt f xs i

/-- Assignment `xs[i] = v` for an index inside the array. -/
def assignAt {α : Type} (v : α) (xs : List α) (i : Nat) : List α :=
  mutateAt (fun _ => v) xs i

/-! ## Complaints store -/

/-- A comment of a complaint. -/
structure Comment where
  id : Nat
  comment_text : String
  is_anonymous : Bool
  deriving DecidableEq, Repr

/-- A cached complaint.  `user_vote` is `none` for `null`; `comments` is `none` while the
comments are not loaded; `comments_count` is `none` when the field is absent. -/
structure Complaint where
  id : Nat
  title : String
  status : String
  category : String
  priority : String
  support_count : Int
  oppose_count : Int
  user_vote : Option String
  comments : Option (List Comment)
  comments_count : Option Int
  deriving DecidableEq, Repr

/-- The state of `useComplaintsStore`. -/
structure ComplaintsState where
  complaints : List Complaint
  currentComplaint : Option Complaint
  loading : Bool
  error : Option String
  pagination : JSObj
  filters : JSObj
  categories : List JSVal
  statuses : List JSVal
  priorities : List JSVal
  deriving DecidableEq, Repr

/-- The state the store is created with. -/
def ComplaintsState.init : ComplaintsState :=
  { complaints := []
    currentComplaint := none
    loading := false
    error := none
    pagination :=
      [("total", .num 0), ("pages", .num 0), ("page", .num 1), ("per_page", .num 10)]
    filters :=
      [("status", .str ""), ("category", .str ""), ("priority", .str ""), ("search", .str ""),
        ("sort_by", .str "created_at"), ("sort_order", .str "desc")]
    categories := []
    statuses := []
    priorities := [] }

/-- The body `response.data.data` of a vote or remove-vote reply. -/
structure VoteCounts where
  support_count : Int
  oppose_count : Int
  deriving DecidableEq, Repr

/-- The closure `updateCounts` of `vote` and `removeVote`; `userVote` is the value assigned to
`user_vote` (`voteType`, or `null`). -/
def updateCounts (r : VoteCounts) (userVote : Option String) (c : Complaint) : Complaint :=
  { c with support_count := r.support_count, oppose_count := r.oppose_count,
           user_vote := userVote }

/-- The two cache updates shared by `vote` and `removeVote`: the entry at
`findIndex(c => c.id === complaintId)` and the current complaint when its id matches. -/
def applyCounts (s : ComplaintsState) (complaintId : Nat) (r : VoteCounts)
    (userVote : Option String) : ComplaintsState :=
  let complaints :=
    match findIndex (fun c => decide (c.id = complaintId)) s.complaints with
    | some index => mutateAt (updateCounts r userVote) s.complaints index
    | none => s.complaints
  let current :=
    match s.currentComplaint with
    | some c => if c.id = complaintId then some (updateCounts r userVote c) else some c
    | none => none
  { s with complaints := complaints, currentComplaint := current }

/-- The request of `votesAPI.vote`. -/
def votesAPI_vote (complaintId : Nat) (voteType : String) (isAnonymous : Bool) : Request :=
  { method := .POST
    url := "/complaints/" ++ toString complaintId ++ "/vote"
    params := []
    data := [("vote_type", .str voteType), ("is_anonymous", .bool isAnonymous)] }

/-- The request of `votesAPI.removeVote`. -/
def votesAPI_removeVote (complaintId : Nat) : Request :=
  { method := .DELETE
    url := "/complaints/" ++ toString complaintId ++ "/vote"
    params := []
    data := [] }

/-- The action `vote(complaintId, voteType, isAnonymous)`. -/
def vote (s : ComplaintsState) (complaintId : Nat) (voteType : String) (isAnonymous : Bool)
    (reply : Except ApiError VoteCounts) : Outcome ComplaintsState (OpResult VoteCounts) :=
  let req := votesAPI_vote complaintId voteType isAnonymous
  match reply with
  | .ok r =>
    { state := applyCounts s complaintId r (some voteType)
      result := .ok r
      requests := [req] }
  | .error err =>
    { state := s
      result := .fail (errorMessage err "Failed to vote")
      requests := [req] }

/-- The action `removeVote(complaintId)`. -/
def removeVote (s : ComplaintsState) (complaintId : Nat)
    (reply : Except ApiError VoteCounts) : Outcome ComplaintsState (OpResult Unit) :=
  let req := votesAPI_removeVote complaintId
  match reply with
  | .ok r =>
    { state := applyCounts s complaintId r none
      result := .ok ()
      requests := [req] }
  | .error err =>
    { state := s
      result := .fail (errorMessage err "Failed to remove vote")
      requests := [req] }

/-- The body `response.data` of a list reply: the page of complaints and its pagination. -/
structure ListResponse where
  data : List Complaint
  pagination : JSObj
  deriving DecidableEq, Repr

/-- The object literal `{ page, per_page, ...filters.value, ...params }` of `fetchComplaints`. -/
def mergedParams (s : ComplaintsState) (params : JSObj) : JSObj :=
  JSObj.spread
    (JSObj.spread
      [("page", JSObj.read s.pagination "page"), ("per_page", JSObj.read s.pagination "per_page")]
      s.filters)
    params

/-- The loop `Object.keys(queryParams).forEach(key => { if (!queryParams[key]) delete
queryParams[key] })`. -/
def removeEmpty (queryParams : JSObj) : JSObj :=
  (JSObj.keys queryParams).foldl
    (fun acc key => if !(JSObj.read acc key).truthy then JSObj.delete acc key else acc)
    queryParams

/-- The request of `complaintsAPI.list`. -/
def complaintsAPI_list (params : JSObj) : Request :=
  { method := .GET, url := "/complaints", params := params, data := [] }

/-- The request of `complaintsAPI.get`. -/
def complaintsAPI_get (id : Nat) : Request :=
  { method := .GET, url := "/complaints/" ++ toString id, params := [], data := [] }

/-- The request of `complaintsAPI.updateStatus`. -/
def complaintsAPI_updateStatus (id : Nat) (data : JSObj) : Request :=
  { method := .PATCH, url := "/complaints/" ++ toString id ++ "/status", params := [],
    data := data }

/-- The request of `complaintsAPI.getCategories`. -/
def complaintsAPI_getCategories : Request :=
  { method := .GET, url := "/complaints/categories", params := [], data := [] }

/-- The request of `commentsAPI.add`. -/
def commentsAPI_add (complaintId : Nat) (text : String) (isAnonymous : Bool) : Request :=
  { method := .POST
    url := "/complaints/" ++ toString complaintId ++ "/comments"
    params := []
    data := [("comment_text", .str text), ("is_anonymous", .bool isAnonymous)] }

/-- The request of `commentsAPI.delete`. -/
def commentsAPI_delete (id : Nat) : Request :=
  { method := .DELETE, url := "/comments/" ++ toString id, params := [], data := [] }

/-- The action `fetchComplaints(params)`. -/
def fetchComplaints (s : ComplaintsState) (params : JSObj)
    (reply : Except ApiError ListResponse) : Outcome ComplaintsState (OpResult Unit) :=
  let req := complaintsAPI_list (removeEmpty (mergedParams s params))
  match reply with
  | .ok response =>
    { state := { s with error := none, complaints := response.data,
                        pagination := response.pagination, loading := false }
      result := .ok ()
      requests := [req] }
  | .error err =>
    let msg := errorMessage err "Failed to fetch complaints"
    { state := { s with error := some msg, loading := false }
      result := .fail msg
      requests := [req] }

/-- The action `fetchComplaint(id)`. -/
def fetchComplaint (s : ComplaintsState) (id : Nat)
    (reply : Except ApiError Complaint) : Outcome ComplaintsState (OpResult Complaint) :=
  let req := complaintsAPI_get id
  match reply with
  | .ok c =>
    { state := { s with error := none, currentComplaint := some c, loading := false }
      result := .ok c
      requests := [req] }
  | .error err =>
    let msg := errorMessage err "Failed to fetch complaint"
    { state := { s with error := some msg, loading := false }
      result := .fail msg
      requests := [req] }

/-- The body `data` of `updateStatus`: `{ status }`, plus `resolution_note` when the note is
truthy. -/
def statusData (status : String) (resolutionNote : Option String) : JSObj :=
  match resolutionNote with
  | some note => if note = "" then [("status", .str status)]
                 else [("status", .str status), ("resolution_note", .str note)]
  | none => [("status", .str status)]

/-- The action `updateStatus(id, status, resolutionNote)`. -/
def updateStatus (s : ComplaintsState) (id : Nat) (status : String)
    (resolutionNote : Option String) (reply : Except ApiError Complaint) :
    Outcome ComplaintsState (OpResult Complaint) :=
  let req := complaintsAPI_updateStatus id (statusData status resolutionNote)
  match reply with
  | .ok e =>
    let complaints :=
      match findIndex (fun c => decide (c.id = id)) s.complaints with
      | some index => assignAt e s.complaints index
      | none => s.complaints
    let current :=
      match s.currentComplaint with
      | some c => if c.id = id then some e else some c
      | none => none
    { state := { s with error := none, complaints := complaints, currentComplaint := current,
                        loading := false }
      result := .ok e
      requests := [req] }
  | .error err =>
    let msg := errorMessage err "Failed to update status"
    { state := { s with error := some msg, loading := false }
      result := .fail msg
      requests := [req] }

/-- The action `addComment(complaintId, text, isAnonymous)`. -/
def addComment (s : ComplaintsState) (complaintId : Nat) (text : String) (isAnonymous : Bool)
    (reply : Except ApiError Comment) : Outcome ComplaintsState (OpResult Comment) :=
  let req := commentsAPI_add complaintId text isAnonymous
  match reply with
  | .ok c =>
    let current :=
      match s.currentComplaint with
      | some cur =>
        if cur.id = complaintId then
          some { cur with comments := some (c :: cur.comments.getD []),
                          comments_count := some (cur.comments_count.getD 0 + 1) }
        else some cur
      | none => none
    { state := { s with currentComplaint := current }
      result := .ok c
      requests := [req] }
  | .error err =>
    { state := s
      result := .fail (errorMessage err "Failed to add comment")
      requests := [req] }

/-- The action `deleteComment(commentId)`. -/
def deleteComment (s : ComplaintsState) (commentId : Nat)
    (reply : Except ApiError Unit) : Outcome ComplaintsState (OpResult Unit) :=
  let req := commentsAPI_delete commentId
  match reply with
  | .ok _ =>
    let current :=
      match s.currentComplaint with
      | some cur =>
        match cur.comments with
        | some cs =>
          some { cur with comments := some (cs.filter (fun c => decide (c.id ≠ commentId))),
                          comments_count := some (max 0 (cur.comments_count.getD 0 - 1)) }
        | none => some cur
      | none => none
    { state := { s with currentComplaint := current }
      result := .ok ()
      requests := [req] }
  | .error err =>
    { state := s
      result := .fail (errorMessage err "Failed to delete comment")
      requests := [req] }

/-- The action `loadCategories()`; it returns `categories.value`. -/
def loadCategories (s : ComplaintsState) (reply : Except ApiError (List JSVal)) :
    Outcome ComplaintsState (List JSVal) :=
  if s.categories.length = 0 then
    match reply with
    | .ok data =>
      { state := { s with categories := data }
        result := data
        requests := [complaintsAPI_getCategories] }
    | .error _ =>
      { state := s
        result := s.categories
        requests := [complaintsAPI_getCategories] }
  else
    { state := s, result := s.categories, requests := [] }

/-- The action `setFilters(newFilters)`. -/
def setFilters (s : ComplaintsState) (newFilters : JSObj) : ComplaintsState :=
  { s with filters := JSObj.spread (JSObj.spread [] s.filters) newFilters,
           pagination := JSObj.set s.pagination "page" (.num 1) }

/-- The action `setPage(page)`. -/
def setPage (s : ComplaintsState) (page : JSVal) : ComplaintsState :=
  { s with pagination := JSObj.set s.pagination "page" page }

/-- The request of `complaintsAPI.create`. -/
def complaintsAPI_create (data : JSObj) : Request :=
  { method := .POST, url := "/complaints", params := [], data := data }

/-- The request of `complaintsAPI.update`. -/
def complaintsAPI_update (id : Nat) (data : JSObj) : Request :=
  { method := .PUT, url := "/complaints/" ++ toString id, params := [], data := data }

/-- The request of `complaintsAPI.delete`. -/
def complaintsAPI_delete (id : Nat) : Request :=
  { method := .DELETE, url := "/complaints/" ++ toString id, params := [], data := [] }

/-- The action `createComplaint(data)`. -/
def createComplaint (s : ComplaintsState) (data : JSObj)
    (reply : Except ApiError Complaint) : Outcome ComplaintsState (OpResult Complaint) :=
  let req := complaintsAPI_create data
  match reply with
  | .ok e =>
    { state := { s with error := none, complaints := e :: s.complaints, loading := false }
      result := .ok e
      requests := [req] }
  | .error err =>
    let msg := errorMessage err "Failed to create complaint"
    { state := { s with error := some msg, loading := false }
      result := .fail msg
      requests := [req] }

/-- The action `updateComplaint(id, data)`. -/
def updateComplaint (s : ComplaintsState) (id : Nat) (data : JSObj)
    (reply : Except ApiError Complaint) : Outcome ComplaintsState (OpResult Complaint) :=
  let req := complaintsAPI_update id data
  match reply with
  | .ok e =>
    let complaints :=
      match findIndex (fun c => decide (c.id = id)) s.complaints with
      | some index => assignAt e s.complaints index
      | none => s.complaints
    let current :=
      match s.currentComplaint with
      | some c => if c.id = id then some e else some c
      | none => none
    { state := { s with error := none, complaints := complaints, currentComplaint := current,
                        loading := false }
      result := .ok e
      requests := [req] }
  | .error err =>
    let msg := errorMessage err "Failed to update complaint"
    { state := { s with error := some msg, loading := false }
      result := .fail msg
      requests := [req] }

/-- The action `deleteComplaint(id)`. -/
def deleteComplaint (s : ComplaintsState) (id : Nat)
    (reply : Except ApiError Unit) : Outcome ComplaintsState (OpResult Unit) :=
  let req := complaintsAPI_delete id
  match reply with
  | .ok _ =>
    { state := { s with error := none,
                        complaints := s.complaints.filter (fun c => decide (c.id ≠ id)),
                        loading := false }
      result := .ok ()
      requests := [req] }
  | .error err =>
    let msg := errorMessage err "Failed to delete complaint"
    { state := { s with error := some msg, loading := false }
      result := .fail msg
      requests := [req] }

/-- The action `clearCurrentComplaint()`. -/
def clearCurrentComplaint (s : ComplaintsState) : ComplaintsState :=
  { s with currentComplaint := none }

/-! ## Complaints store: the entity caches with object identity

The actions above hold cached complaints by value.  The definitions of this section follow
the same source functions for the two entity caches only, and keep track of which object is
stored where: `updateComplaint` and `updateStatus` store the one object `response.data.data`
both in the array and in `currentComplaint`, and `vote`, `removeVote`, `addComment` and
`deleteComment` then assign to fields of a stored object. -/

namespace Ref

/-- The entity caches with object identity: `objects` are the complaint objects received so
far (a reference is an index into it), `complaints` is the array `complaints.value` of
references and `currentComplaint` the reference `currentComplaint.value`, or `none` for
`null`. -/
structure Store where
  objects : List Complaint
  complaints : List Nat
  currentComplaint : Option Nat
  deriving DecidableEq, Repr

/-- The caches of a new store. -/
def Store.init : Store :=
  { objects := [], complaints := [], currentComplaint := none }

/-- The object behind a reference. -/
def Store.deref (st : Store) (r : Nat) : Option Complaint :=
  st.objects[r]?

/-- The list cache as read through `complaints.value`. -/
def Store.listCache (st : Store) : List Complaint :=
  st.complaints.filterMap st.deref

/-- The current complaint as read through `currentComplaint.value`. -/
def Store.currentCache (st : Store) : Option Complaint :=
  st.currentComplaint.bind st.deref

/-- The test `c.id === id` on the object behind a reference. -/
def Store.hasId (st : Store) (id : Nat) (r : Nat) : Bool :=
  match st.deref r with
  | some c => decide (c.id = id)
  | none => false

/-- The action `fetchComplaints`: the array is replaced by the objects of the reply. -/
def fetchComplaints (st : Store) (reply : Except ApiError ListResponse) : Store :=
  match reply with
  | .ok response =>
    { st with objects := st.objects ++ response.data,
              complaints := List.range' st.objects.length response.data.length }
  | .error _ => st

/-- The action `fetchComplaint`: the current complaint is the object of the reply. -/
def fetchComplaint (st : Store) (reply : Except ApiError Complaint) : Store :=
  match reply with
  | .ok c => { st with objects := st.objects ++ [c], currentComplaint := some st.objects.length }
  | .error _ => st

/-- The action `createComplaint`: the object of the reply is put in front of the array. -/
def createComplaint (st : Store) (reply : Except ApiError Complaint) : Store :=
  match reply with
  | .ok e => { st with objects := st.objects ++ [e],
                       complaints := st.objects.length :: st.complaints }
  | .error _ => st

/-- The cache updates of `updateComplaint(id, data)` and of `updateStatus(id, status, note)`:
the one object of the reply is assigned to `complaints.value[index]` and to
`currentComplaint.value`. -/
def update (st : Store) (id : Nat) (reply : Except ApiError Complaint) : Store :=
  match reply with
  | .ok e =>
    let r := st.objects.length
    let complaints :=
      match findIndex (st.hasId id) st.complaints with
      | some index => assignAt r st.complaints index
      | none => st.complaints
    let current :=
      match st.currentComplaint with
      | some cr => if st.hasId id cr then some r else some cr
      | none => none
    { objects := st.objects ++ [e], complaints := complaints, currentComplaint := current }
  | .error _ => st

/-- The action `updateComplaint(id, data)`. -/
def updateComplaint (st : Store) (id : Nat) (reply : Except ApiError Complaint) : Store :=
  update st id reply

/-- The action `updateStatus(id, status, resolutionNote)`. -/
def updateStatus (st : Store) (id : Nat) (reply : Except ApiError Complaint) : Store :=
  update st id reply

/-- The action `deleteComplaint(id)`. -/
def deleteComplaint (st : Store) (id : Nat) (reply : Except ApiError Unit) : Store :=
  match reply with
  | .ok _ => { st with complaints := st.complaints.filter (fun r => !st.hasId id r) }
  | .error _ => st

/-- The cache updates of `vote` and `removeVote`: `updateCounts` is applied to the object at
`complaints.value[index]` and then to the object `currentComplaint.value`. -/
def applyCounts (st : Store) (complaintId : Nat) (r : VoteCounts) (userVote : Option String) :
    Store :=
  let objects1 :=
    match findIndex (st.hasId complaintId) st.complaints with
    | some index =>
      match st.complaints[index]? with
      | some ref => mutateAt (updateCounts r userVote) st.objects ref
      | none => st.objects
    | none => st.objects
  let objects2 :=
    match st.currentComplaint with
    | some cr =>
      if st.hasId complaintId cr then mutateAt (updateCounts r userVote) objects1 cr
      else objects1
    | none => objects1
  { st with objects := objects2 }

/-- The action `vote(complaintId, voteType, isAnonymous)`. -/
def vote (st : Store) (complaintId : Nat) (voteType : String)
    (reply : Except ApiError VoteCounts) : Store :=
  match reply with
  | .ok r => applyCounts st complaintId r (some voteType)
  | .error _ => st

/-- The action `removeVote(complaintId)`. -/
def removeVote (st : Store) (complaintId : Nat) (reply : Except ApiError VoteCounts) : Store :=
  match reply with
  | .ok r => applyCounts st complaintId r none
  | .error _ => st

/-- The action `addComment(complaintId, text, isAnonymous)`: the fields `comments` and
`comments_count` of the object `currentComplaint.value` are assigned. -/
def addComment (st : Store) (complaintId : Nat) (reply : Except ApiError Comment) : Store :=
  match reply with
  | .ok c =>
    match st.currentComplaint with
    | some cr =>
      if st.hasId complaintId cr then
        { st with
          objects :=
            mutateAt
              (fun cur => { cur with comments := some (c :: cur.comments.getD []),
                                     comments_count := some (cur.comments_count.getD 0 + 1) })
              st.objects cr }
      else st
    | none => st
  | .error _ => st

/-- The action `deleteComment(commentId)`: the fields `comments` and `comments_count` of the
object `currentComplaint.value` are assigned when its comments are loaded. -/
def deleteComment (st : Store) (commentId : Nat) (reply : Except ApiError Unit) : Store :=
  match reply with
  | .ok _ =>
    match st.currentComplaint with
    | some cr =>
      match st.deref cr with
      | some cur =>
        match cur.comments with
        | some cs =>
          { st with
            objects :=
              mutateAt
                (fun cur =>
                  { cur with
                    comments := some (cs.filter (fun c => decide (c.id ≠ commentId))),
                    comments_count := some (max 0 (cur.comments_count.getD 0 - 1)) })
                st.objects cr }
        | none => st
      | none => st
    | none => st
  | .error _ => st

end Ref

/-! ## Notifications store -/

/-- A cached notification. -/
structure Notification where
  id : Nat
  is_read : Bool
  title : String
  message : String
  deriving DecidableEq, Repr

/-- A queued toast message. -/
structure Toast where
  id : Nat
  message : String
  type : String
  deriving DecidableEq, Repr

/-- The state of `useNotificationsStore`, with the closure variable `toastId`. -/
structure NotificationsState where
  notifications : List Notification
  unreadCount : Int
  loading : Bool
  pagination : JSObj
  toasts : List Toast
  toastId : Nat
  deriving DecidableEq, Repr

/-- The state the store is created with. -/
def NotificationsState.init : NotificationsState :=
  { notifications := []
    unreadCount := 0
    loading := false
    pagination :=
      [("total", .num 0), ("pages", .num 0), ("page", .num 1), ("per_page", .num 20)]
    toasts := []
    toastId := 0 }

/-- The call `xs.find(p)`; `none` stands for `undefined`. -/
def find {α : Type} (p : α → Bool) : List α → Option α
  | [] => none
  | x :: xs => if p x then some x else find p xs

/-- In-place mutation `f(xs.find(p))` of the object `find` returns, when there is one. -/
def mutateFound {α : Type} (p : α → Bool) (f : α → α) : List α → List α
  | [] => []
  | x :: xs => if p x then f x :: xs else x :: mutateFound p f xs

/-- The body `response.data` of a notifications list reply. -/
structure NotificationsResponse where
  data : List Notification
  unread_count : Int
  pagination : JSObj
  deriving DecidableEq, Repr

/-- The request of `notificationsAPI.list`. -/
def notificationsAPI_list (params : JSObj) : Request :=
  { method := .GET, url := "/notifications", params := params, data := [] }

/-- The action `fetchNotifications(params)`. -/
def fetchNotifications (s : NotificationsState) (params : JSObj)
    (reply : Except ApiError NotificationsResponse) :
    Outcome NotificationsState (OpResult Unit) :=
  let req :=
    notificationsAPI_list
      (JSObj.spread
        [("page", JSObj.read s.pagination "page"),
          ("per_page", JSObj.read s.pagination "per_page")]
        params)
  match reply with
  | .ok response =>
    { state := { s with notifications := response.data, unreadCount := response.unread_count,
                        pagination := response.pagination, loading := false }
      result := .ok ()
      requests := [req] }
  | .error err =>
    { state := { s with loading := false }
      result := .fail (errorMessage err "Failed to fetch notifications")
      requests := [req] }

/-- The request of `notificationsAPI.getUnreadCount`. -/
def notificationsAPI_getUnreadCount : Request :=
  { method := .GET, url := "/notifications/unread-count", params := [], data := [] }

/-- The action `fetchUnreadCount()`; the reply body is `response.data.data.unread_count`. -/
def fetchUnreadCount (s : NotificationsState) (reply : Except ApiError Int) :
    Outcome NotificationsState Unit :=
  match reply with
  | .ok unread_count =>
    { state := { s with unreadCount := unread_count }
      result := ()
      requests := [notificationsAPI_getUnreadCount] }
  | .error _ =>
    { state := s, result := (), requests := [notificationsAPI_getUnreadCount] }

/-- The request of `notificationsAPI.markAsRead`. -/
def notificationsAPI_markAsRead (id : Nat) : Request :=
  { method := .PATCH, url := "/notifications/" ++ toString id ++ "/read", params := [],
    data := [] }

/-- The request of `notificationsAPI.markAllAsRead`. -/
def notificationsAPI_markAllAsRead : Request :=
  { method := .PATCH, url := "/notifications/mark-all-read", params := [], data := [] }

/-- The request of `notificationsAPI.delete`. -/
def notificationsAPI_delete (id : Nat) : Request :=
  { method := .DELETE, url := "/notifications/" ++ toString id, params := [], data := [] }

/-- The request of `notificationsAPI.clearAll`. -/
def notificationsAPI_clearAll : Request :=
  { method := .DELETE, url := "/notifications/clear-all", params := [], data := [] }

/-- The action `markAsRead(id)`. -/
def markAsRead (s : NotificationsState) (id : Nat) (reply : Except ApiError Unit) :
    Outcome NotificationsState (OpResult Unit) :=
  let req := notificationsAPI_markAsRead id
  match reply with
  | .ok _ =>
    let state :=
      match find (fun n => decide (n.id = id)) s.notifications with
      | some notification =>
        if !notification.is_read then
          { s with
            notifications :=
              mutateFound (fun n => decide (n.id = id)) (fun n => { n with is_read := true })
                s.notifications
            unreadCount := max 0 (s.unreadCount - 1) }
        else s
      | none => s
    { state := state, result := .ok (), requests := [req] }
  | .error err =>
    { state := s
      result := .fail (errorMessage err "Failed to mark as read")
      requests := [req] }

/-- The action `markAllAsRead()`. -/
def markAllAsRead (s : NotificationsState) (reply : Except ApiError Unit) :
    Outcome NotificationsState (OpResult Unit) :=
  let req := notificationsAPI_markAllAsRead
  match reply with
  | .ok _ =>
    { state := { s with notifications := s.notifications.map (fun n => { n with is_read := true }),
                        unreadCount := 0 }
      result := .ok ()
      requests := [req] }
  | .error err =>
    { state := s
      result := .fail (errorMessage err "Failed to mark all as read")
      requests := [req] }

/-- The action `deleteNotification(id)`. -/
def deleteNotification (s : NotificationsState) (id : Nat) (reply : Except ApiError Unit) :
    Outcome NotificationsState (OpResult Unit) :=
  let req := notificationsAPI_delete id
  match reply with
  | .ok _ =>
    let unreadCount :=
      match find (fun n => decide (n.id = id)) s.notifications with
      | some notification =>
        if !notification.is_read then max 0 (s.unreadCount - 1) else s.unreadCount
      | none => s.unreadCount
    { state := { s with unreadCount := unreadCount,
                        notifications := s.notifications.filter (fun n => decide (n.id ≠ id)) }
      result := .ok ()
      requests := [req] }
  | .error err =>
    { state := s
      result := .fail (errorMessage err "Failed to delete notification")
      requests := [req] }

/-- The action `clearAll()`. -/
def clearAll (s : NotificationsState) (reply : Except ApiError Unit) :
    Outcome NotificationsState (OpResult Unit) :=
  let req := notificationsAPI_clearAll
  match reply with
  | .ok _ =>
    { state := { s with notifications := [], unreadCount := 0 }
      result := .ok ()
      requests := [req] }
  | .error err =>
    { state := s
      result := .fail (errorMessage err "Failed to clear notifications")
      requests := [req] }

/-- What `showToast` leaves behind: the store state, the id it returns, and the timer it set
with `setTimeout` (the id to remove and the delay), if any. -/
structure ToastOutcome where
  state : NotificationsState
  id : Nat
  timer : Option (Nat × Int)
  deriving DecidableEq, Repr

/-- The function `showToast(message, type, duration)`. -/
def showToast (s : NotificationsState) (message type : String) (duration : Int) :
    ToastOutcome :=
  let id := s.toastId + 1
  { state := { s with toastId := id,
                      toasts := s.toasts ++ [{ id := id, message := message, type := type }] }
    id := id
    timer := if duration > 0 then some (id, duration) else none }

/-- The function `removeToast(id)`; it is also what a timer set by `showToast` runs. -/
def removeToast (s : NotificationsState) (id : Nat) : NotificationsState :=
  { s with toasts := s.toasts.filter (fun t => decide (t.id ≠ id)) }

/-- The function `showError(message)`. -/
def showError (s : NotificationsState) (message : String) : ToastOutcome :=
  showToast s message "error" 6000

/-- The function `showSuccess(message)`. -/
def showSuccess (s : NotificationsState) (message : String) : ToastOutcome :=
  showToast s message "success" 4000

/-! ## Session store, transport client and navigation guard

`src/frontend/src/stores/auth.js`, the response interceptor of
`src/frontend/src/services/api.js` and the guard of `src/frontend/src/router/index.js`.  A
profile is a plain object; `router.push` calls are recorded in order. -/

/-- The two credentials kept in `localStorage`; `none` when the key is not stored. -/
structure Storage where
  access_token : Option String
  refresh_token : Option String
  deriving DecidableEq, Repr

/-- The argument of a `router.push` call: a path, a named route with its query, or any other
value. -/
inductive NavTarget where
  | path (p : String)
  | named (name : String) (query : JSObj)
  | other (v : JSVal)
  deriving DecidableEq, Repr

/-- The state of `useAuthStore`; `none` stands for `null`. -/
structure AuthState where
  user : Option JSObj
  token : Option String
  loading : Bool
  error : Option String
  deriving DecidableEq, Repr

/-- The session: the auth store, `localStorage`, and the `router.push` calls made so far. -/
structure Session where
  auth : AuthState
  storage : Storage
  pushes : List NavTarget
  deriving DecidableEq, Repr

/-- The auth store as created over a given `localStorage`:
`token = ref(localStorage.getItem('access_token'))`. -/
def Session.init (storage : Storage) : Session :=
  { auth := { user := none, token := storage.access_token, loading := false, error := none }
    storage := storage
    pushes := [] }

/-- Truthiness of a string or `null`. -/
def truthyString : Option String → Bool
  | some t => t != ""
  | none => false

/-- Whether the characters `t` start with the characters `sub`. -/
def startsWith : List Char → List Char → Bool
  | _, [] => true
  | [], _ :: _ => false
  | a :: t, b :: sub => a == b && startsWith t sub

/-- Whether `sub` occurs in the characters `t`. -/
def includesChars : List Char → List Char → Bool
  | [], sub => sub.isEmpty
  | a :: t, sub => startsWith (a :: t) sub || includesChars t sub

/-- The call `s.includes(sub)` on strings. -/
def includes (s sub : String) : Bool :=
  includesChars s.toList sub.toList

/-- The getter `isAuthenticated`: `!!token.value && !!user.value`. -/
def isAuthenticated (a : AuthState) : Bool :=
  truthyString a.token && a.user.isSome

/-- The expression `user.value?.roles?.includes(role)`: `undefined` without a user or without
`roles`; `none` when `roles` is a value on which the call throws. -/
def rolesIncludes (user : Option JSObj) (role : String) : Option JSVal :=
  match user with
  | none => some .undefined
  | some u =>
    match JSObj.read u "roles" with
    | .undefined => some .undefined
    | .null => some .undefined
    | .arr items => some (.bool (items.contains role))
    | .str s => some (.bool (includes s role))
    | _ => none

/-- The getter `isAdmin`. -/
def isAdmin (a : AuthState) : Option JSVal :=
  rolesIncludes a.user "admin"

/-- The getter `isSecretary`: `roles.includes('secretary') || isAdmin.value`. -/
def isSecretary (a : AuthState) : Option JSVal :=
  match rolesIncludes a.user "secretary" with
  | some v => if v.truthy then some v else isAdmin a
  | none => none

/-- The getter `isCommittee`: `roles.includes('committee_member') || isSecretary.value`. -/
def isCommittee (a : AuthState) : Option JSVal :=
  match rolesIncludes a.user "committee_member" with
  | some v => if v.truthy then some v else isSecretary a
  | none => none

/-- The getter `karmaScore`: `user.value?.karma_score || 0`. -/
def karmaScore (a : AuthState) : JSVal :=
  match a.user with
  | some u => if (JSObj.read u "karma_score").truthy then JSObj.read u "karma_score" else .num 0
  | none => .num 0

/-- The getter `society`: `user.value?.society || null`. -/
def society (a : AuthState) : JSVal :=
  match a.user with
  | some u => if (JSObj.read u "society").truthy then JSObj.read u "society" else .null
  | none => .null

/-- The action `logout()`. -/
def logout (w : Session) : Session :=
  { auth := { w.auth with token := none, user := none, error := none }
    storage := { access_token := none, refresh_token := none }
    pushes := w.pushes ++ [.path "/login"] }

/-- The test `isAuthEndpoint` of the response interceptor. -/
def isAuthEndpoint (url : String) : Bool :=
  includes url "/auth/login" || includes url "/auth/register"

/-- The rejected branch of the response interceptor, for the request `url` rejected with
`err`: the session it leaves.  The interceptor ends with `Promise.reject(error)` on every
path. -/
def onResponseError (w : Session) (url : String) (err : ApiError) : Session :=
  match err.response with
  | some response =>
    if response.status = 401 then
      if !isAuthEndpoint url then
        { logout w with pushes := (logout w).pushes ++ [.named "login" []] }
      else w
    else w
  | none => w

/-- One call through the axios instance: the session after the interceptors ran and the
settled call the caller receives. -/
def apiCall {ρ : Type} (w : Session) (url : String) (reply : Except ApiError ρ) :
    Session × Except ApiError ρ :=
  match reply with
  | .ok r => (w, .ok r)
  | .error err => (onResponseError w url err, .error err)

/-- The request of `authAPI.getProfile`. -/
def authAPI_getProfile : Request :=
  { method := .GET, url := "/auth/profile", params := [], data := [] }

/-- The request of `authAPI.updateProfile`. -/
def authAPI_updateProfile (data : JSObj) : Request :=
  { method := .PUT, url := "/auth/profile", params := [], data := data }

/-- The request of `authAPI.login`. -/
def authAPI_login (credentials : JSObj) : Request :=
  { method := .POST, url := "/auth/login", params := [], data := credentials }

/-- The action `initializeAuth()`. -/
def initializeAuth (w : Session) (reply : Except ApiError JSObj) : Outcome Session Unit :=
  if truthyString w.auth.token then
    match apiCall w authAPI_getProfile.url reply with
    | (w1, .ok data) =>
      { state := { w1 with auth := { w1.auth with user := some data, loading := false } }
        result := ()
        requests := [authAPI_getProfile] }
    | (w1, .error _) =>
      { state := { logout w1 with auth := { (logout w1).auth with loading := false } }
        result := ()
        requests := [authAPI_getProfile] }
  else
    { state := w, result := (), requests := [] }

/-- The body `response.data.data` of a login reply. -/
structure LoginData where
  access_token : String
  refresh_token : Option String
  user : JSObj
  society : JSVal
  deriving DecidableEq, Repr

/-- The expression `router.currentRoute.value.query.redirect || '/dashboard'` of `login`, as
the argument of `router.push`. -/
def loginDestination (routeQuery : JSObj) : NavTarget :=
  match JSObj.read routeQuery "redirect" with
  | .str p => if p = "" then .path "/dashboard" else .path p
  | v => if v.truthy then .other v else .path "/dashboard"

/-- The action `login(credentials)`; `routeQuery` is `router.currentRoute.value.query` when the
reply arrives. -/
def login (w : Session) (credentials : JSObj) (routeQuery : JSObj)
    (reply : Except ApiError LoginData) : Outcome Session (OpResult Unit) :=
  let req := authAPI_login credentials
  match apiCall w req.url reply with
  | (w1, .ok r) =>
    { state :=
        { auth :=
            { user := some (JSObj.set (JSObj.spread [] r.user) "society" r.society)
              token := some r.access_token
              loading := false
              error := none }
          storage :=
            { access_token := some r.access_token
              refresh_token :=
                if truthyString r.refresh_token then r.refresh_token
                else w1.storage.refresh_token }
          pushes := w1.pushes ++ [loginDestination routeQuery] }
      result := .ok ()
      requests := [req] }
  | (w1, .error err) =>
    let msg := errorMessage err "Login failed"
    { state := { w1 with auth := { w1.auth with error := some msg, loading := false } }
      result := .fail msg
      requests := [req] }

/-- The action `updateProfile(data)`. -/
def updateProfile (w : Session) (data : JSObj) (reply : Except ApiError JSObj) :
    Outcome Session (OpResult Unit) :=
  let req := authAPI_updateProfile data
  match apiCall w req.url reply with
  | (w1, .ok r) =>
    { state :=
        { w1 with
          auth :=
            { w1.auth with
              user := some (JSObj.spread (JSObj.spread [] (w1.auth.user.getD [])) r)
              loading := false } }
      result := .ok ()
      requests := [req] }
  | (w1, .error err) =>
    let msg := errorMessage err "Failed to update profile"
    { state := { w1 with auth := { w1.auth with error := some msg, loading := false } }
      result := .fail msg
      requests := [req] }

/-- The action `refreshProfile()`. -/
def refreshProfile (w : Session) (reply : Except ApiError JSObj) : Outcome Session Unit :=
  match apiCall w authAPI_getProfile.url reply with
  | (w1, .ok r) =>
    { state := { w1 with auth := { w1.auth with user := some r } }
      result := ()
      requests := [authAPI_getProfile] }
  | (w1, .error _) =>
    { state := w1, result := (), requests := [authAPI_getProfile] }

/-- The fields of `to.meta` the guard reads. -/
structure RouteMeta where
  requiresAuth : Bool
  guest : Bool
  requiresSecretary : Bool
  deriving DecidableEq, Repr

/-- A resolved route location, the argument `to` of the guard. -/
structure Route where
  name : String
  fullPath : String
  query : JSObj
  meta : RouteMeta
  deriving DecidableEq, Repr

/-- What the guard passes to `next`: nothing, or a location to go to instead. -/
inductive Next where
  | proceed
  | redirect (target : NavTarget)
  deriving DecidableEq, Repr

/-- The guard `router.beforeEach` for the destination `to`, here `dest`; `none` when reading
`isSecretary` throws. -/
def beforeEach (a : AuthState) (dest : Route) : Option Next :=
  if dest.meta.requiresAuth && !isAuthenticated a then
    some (.redirect (.named "login" [("redirect", .str dest.fullPath)]))
  else if dest.meta.guest && isAuthenticated a then
    some (.redirect (.named "dashboard" []))
  else if dest.meta.requiresSecretary then
    match isSecretary a with
    | some v => if !v.truthy then some (.redirect (.named "dashboard" [])) else some .proceed
    | none => none
  else some .proceed

/-- The route record `login` of the route table: path `/login`, `meta: { guest: true }`. -/
def loginRoute (query : JSObj) : Route :=
  { name := "login", fullPath := "/login", query := query,
    meta := { requiresAuth := false, guest := true, requiresSecretary := false } }

/-- The route record `complaint-detail` for one complaint; it is a child of the main layout,
whose `meta` is `{ requiresAuth: true }`. -/
def complaintDetailRoute (id : Nat) : Route :=
  { name := "complaint-detail", fullPath := "/complaints/" ++ toString id, query := [],
    meta := { requiresAuth := true, guest := false, requiresSecretary := false } }

/-- The route record a `router.push` argument resolves to, for the two ways the sources name
the login view: the path `'/login'` and the route name `login`, with the query given; `none`
for any other argument. -/
def resolveLogin : NavTarget → Option Route
  | .path p => if p = "/login" then some (loginRoute []) else none
  | .named name query => if name = "login" then some (loginRoute query) else none
  | .other _ => none

/-- The navigations left to be performed by the `router.push` calls that one synchronous run
of code makes, in order.  The router (vue-router, a dependency that is not part of the
sources) starts a navigation for each call and runs its guards asynchronously; a call made
before the previous navigation has finished supersedes it, and the superseded navigation
fails as cancelled.  So the last call of the run is the one navigation performed, and a run
without a call performs none. -/
def settledNavigations (calls : List NavTarget) : List NavTarget :=
  match calls.getLast? with
  | some target => [target]
  | none => []

/-! ## Runs of operations, measures, specifications and sample states -/

/-- A complaint with id 1, three supporters and one opponent, not yet voted on. -/
def complaintOne : Complaint :=
  { id := 1, title := "Water leak", status := "open", category := "maintenance",
    priority := "high", support_count := 3, oppose_count := 1, user_vote := none,
    comments := none, comments_count := none }

/-- A complaint with id 2. -/
def complaintTwo : Complaint :=
  { id := 2, title := "Parking", status := "open", category := "parking",
    priority := "low", support_count := 0, oppose_count := 0, user_vote := none,
    comments := none, comments_count := none }

/-- Complaint 1 heads the list and is the current complaint. -/
def viewingOne : ComplaintsState :=
  { ComplaintsState.init with complaints := [complaintOne, complaintTwo],
                              currentComplaint := some complaintOne }

/-- One operation of a run of votes on one complaint id, with the way its request settles. -/
inductive VoteOp where
  | vote (voteType : String) (isAnonymous : Bool) (reply : Except ApiError VoteCounts)
  | removeVote (reply : Except ApiError VoteCounts)

/-- Whether the request of the operation succeeded. -/
def VoteOp.succeeded : VoteOp → Bool
  | .vote _ _ (.ok _) => true
  | .vote _ _ (.error _) => false
  | .removeVote (.ok _) => true
  | .removeVote (.error _) => false

/-- The store state after one vote operation on `complaintId` resolves. -/
def VoteOp.apply (complaintId : Nat) (s : ComplaintsState) : VoteOp → ComplaintsState
  | .vote voteType isAnonymous reply => (Padosi.vote s complaintId voteType isAnonymous reply).state
  | .removeVote reply => (Padosi.removeVote s complaintId reply).state

/-- The store state after a sequence of vote operations on `complaintId`, each resolved before
the next starts. -/
def runVotes (complaintId : Nat) (s : ComplaintsState) (ops : List VoteOp) : ComplaintsState :=
  ops.foldl (VoteOp.apply complaintId) s

/-- The list-cache entry for an id: the first entry with that id, the one `findIndex`
selects. -/
def listEntry (s : ComplaintsState) (id : Nat) : Option Complaint :=
  find (fun c => decide (c.id = id)) s.complaints

/-- The current-complaint entry for an id: the current complaint when it has that id. -/
def currentEntry (s : ComplaintsState) (id : Nat) : Option Complaint :=
  match s.currentComplaint with
  | some c => if c.id = id then some c else none
  | none => none

/-- List/detail agreement for an id: when both caches hold an entry for it, the entries carry
the same `support_count`, `oppose_count` and `user_vote`. -/
def votesAgree (s : ComplaintsState) (id : Nat) : Prop :=
  ∀ a b : Complaint, listEntry s id = some a → currentEntry s id = some b →
    a.support_count = b.support_count ∧ a.oppose_count = b.oppose_count ∧
      a.user_vote = b.user_vote

/-- The list holds complaint 1 as fetched earlier (3 supporters); the detail view fetched it
later, after someone else voted (4 supporters). -/
def staleList : ComplaintsState :=
  (fetchComplaint
    (fetchComplaints ComplaintsState.init []
      (.ok { data := [complaintOne], pagination := ComplaintsState.init.pagination })).state
    1 (.ok { complaintOne with support_count := 4 })).state

/-- An optional value kept only when it is truthy. -/
def keepTruthy : Option JSVal → Option JSVal
  | some v => if v.truthy then some v else none
  | none => none

/-- Specification: the value of key `k` in the merge of `page` and `per_page` of the
pagination state, then the filters, then the overrides, a later source winning on a shared
key; `none` when no source has the key. -/
def specMergedParam (pagination filters overrides : JSObj) (k : String) : Option JSVal :=
  match JSObj.get overrides k with
  | some v => some v
  | none =>
    match JSObj.get filters k with
    | some v => some v
    | none =>
      if k = "page" then some (JSObj.read pagination "page")
      else if k = "per_page" then some (JSObj.read pagination "per_page")
      else none

/-- The store on page 3 with the filter `status: 'resolved'` set. -/
def pageThree : ComplaintsState :=
  setPage (setFilters ComplaintsState.init [("status", .str "resolved")]) (.num 3)

/-- One operation of a run on the notifications store, with the way its request settles. -/
inductive NotifOp where
  | markAsRead (id : Nat) (reply : Except ApiError Unit)
  | deleteNotification (id : Nat) (reply : Except ApiError Unit)
  | markAllAsRead (reply : Except ApiError Unit)
  | clearAll (reply : Except ApiError Unit)

/-- The store state after one operation resolves. -/
def NotifOp.apply (s : NotificationsState) : NotifOp → NotificationsState
  | .markAsRead id reply => (Padosi.markAsRead s id reply).state
  | .deleteNotification id reply => (Padosi.deleteNotification s id reply).state
  | .markAllAsRead reply => (Padosi.markAllAsRead s reply).state
  | .clearAll reply => (Padosi.clearAll s reply).state

/-- The store state after a sequence of operations, each resolved before the next starts. -/
def runNotifications (s : NotificationsState) (ops : List NotifOp) : NotificationsState :=
  ops.foldl NotifOp.apply s

/-- The number of cached notifications with `is_read == false`. -/
def countUnread (xs : List Notification) : Int :=
  ((xs.filter (fun n => !n.is_read)).length : Int)

/-- Three unread notifications. -/
def threeUnread : List Notification :=
  [{ id := 7, is_read := false, title := "Escalated", message := "Complaint 1 was escalated" },
    { id := 8, is_read := false, title := "Comment", message := "New comment" },
    { id := 9, is_read := false, title := "Resolved", message := "Complaint 2 was resolved" }]

/-- The store after a list fetch that returned three unread notifications. -/
def inboxOfThree : NotificationsState :=
  (fetchNotifications NotificationsState.init []
    (.ok { data := threeUnread, unread_count := 3,
           pagination := NotificationsState.init.pagination })).state

/-- The store after the unread count was polled (3) and before any list fetch: the badge
shows 3 and no notification is cached. -/
def badgeOnly : NotificationsState :=
  (fetchUnreadCount NotificationsState.init (.ok 3)).state

/-- Specification of "replaces the matching list entry (by id) if present, and replaces the
current complaint if it is the same id": `after` has the list of `before` with the first entry
whose id is `id` replaced by `e` (the only such entry when ids are distinct), same length and
every other position unchanged, and the current complaint of `before` replaced by `e` when its
id is `id`; a cache of `before` that does not hold `id` is the same in `after`. -/
def ReplacedById (id : Nat) (e : Complaint) (before after : ComplaintsState) : Prop :=
  after.complaints.length = before.complaints.length ∧
    (∀ (i : Nat) (c : Complaint), before.complaints[i]? = some c → c.id = id →
      (∀ (j : Nat) (d : Complaint), j < i → before.complaints[j]? = some d → d.id ≠ id) →
      after.complaints[i]? = some e) ∧
    (∀ (i : Nat) (c : Complaint), before.complaints[i]? = some c →
      (c.id ≠ id ∨
        ∃ (j : Nat) (d : Complaint), j < i ∧ before.complaints[j]? = some d ∧ d.id = id) →
      after.complaints[i]? = some c) ∧
    ((before.complaints.map (fun c => c.id)).Nodup →
      ∀ (i : Nat) (c : Complaint), before.complaints[i]? = some c →
        after.complaints[i]? = some (if c.id = id then e else c)) ∧
    ((∀ c ∈ before.complaints, c.id ≠ id) → after.complaints = before.complaints) ∧
    (∀ c : Complaint, before.currentComplaint = some c → c.id = id →
      after.currentComplaint = some e) ∧
    (∀ c : Complaint, before.currentComplaint = some c → c.id ≠ id →
      after.currentComplaint = some c) ∧
    (before.currentComplaint = none → after.currentComplaint = none)

/-- Complaint 1 as the server returns it once resolved. -/
def resolvedOne : Complaint :=
  { complaintOne with status := "resolved" }

/-- The comment the server returns for a new comment on complaint 1. -/
def commentTen : Comment :=
  { id := 10, comment_text := "Fixed yesterday", is_anonymous := false }

/-- An older comment on complaint 1. -/
def commentEleven : Comment :=
  { id := 11, comment_text := "Still leaking", is_anonymous := true }

/-- Complaint 1 as the detail endpoint returns it, with its two comments loaded. -/
def detailOne : Complaint :=
  { complaintOne with comments := some [commentTen, commentEleven], comments_count := some 2 }

/-- The caches after the list was fetched (complaints 1 and 2) and complaint 1 was opened:
the list entry and the current complaint are two objects. -/
def Ref.afterFetches : Ref.Store :=
  Ref.fetchComplaint
    (Ref.fetchComplaints Ref.Store.init
      (.ok { data := [complaintOne, complaintTwo], pagination := [] }))
    (.ok complaintOne)

/-- The caches after `updateStatus(1, 'resolved')` succeeded on `Ref.afterFetches`: the list
entry for complaint 1 and the current complaint are the one object of the reply. -/
def Ref.afterUpdate : Ref.Store :=
  Ref.updateStatus Ref.afterFetches 1 (.ok resolvedOne)

/-- The caches after `updateComplaint(1, data)` succeeded on `Ref.afterFetches` and the reply
carried the complaint with its two comments. -/
def Ref.afterUpdateWithComments : Ref.Store :=
  Ref.updateComplaint Ref.afterFetches 1 (.ok detailOne)

/-- One call on the toast queue: `showToast(message, type, duration)`, or `removeToast(id)`,
by a caller or by an expired timer. -/
inductive ToastOp where
  | showToast (message type : String) (duration : Int)
  | removeToast (id : Nat)
  deriving DecidableEq, Repr

/-- The store state and the ids returned so far (oldest first) after one more call. -/
def ToastOp.apply (acc : NotificationsState × List Nat) : ToastOp → NotificationsState × List Nat
  | .showToast message type duration =>
    ((Padosi.showToast acc.1 message type duration).state,
      acc.2 ++ [(Padosi.showToast acc.1 message type duration).id])
  | .removeToast id => (Padosi.removeToast acc.1 id, acc.2)

/-- The store state and the ids `showToast` returned, in order, after a sequence of calls. -/
def runToasts (s : NotificationsState) (ops : List ToastOp) : NotificationsState × List Nat :=
  ops.foldl ToastOp.apply (s, [])

/-- The `user` object of a login reply: a resident without karma yet. -/
def residentProfile : JSObj :=
  [("id", .num 1), ("name", .str "Asha"), ("roles", .arr ["resident"])]

/-- A login reply: two credentials, the user, and the society as a field of its own. -/
def loginReply : LoginData :=
  { access_token := "token-1", refresh_token := some "refresh-1", user := residentProfile,
    society := .object 7 }

/-- The session after a successful login from the login page opened without a `redirect`
query. -/
def signedIn : Session :=
  (login (Session.init { access_token := none, refresh_token := none })
    [("email", .str "asha@example.org"), ("password", .str "secret")] [] (.ok loginReply)).state

/-- The session of a page load with both credentials stored by an earlier login. -/
def returningVisitor : Session :=
  Session.init { access_token := some "token-1", refresh_token := some "refresh-1" }

/-- A profile reply: the user's own fields, without the society. -/
def profileReply : JSObj :=
  [("id", .num 1), ("name", .str "Asha K"), ("roles", .arr ["resident"]),
    ("karma_score", .num 5)]

/-- A rejection with status 401 and the payload message `'Token has expired'`. -/
def unauthorized : ApiError :=
  { response := some { status := 401, error := some "Token has expired" } }

/-- The difference the data model allows to be non-zero: `comments_count` (0 when absent)
minus the number of loaded comments (0 when not loaded). -/
def commentDrift (c : Complaint) : Int :=
  c.comments_count.getD 0 - ((c.comments.getD []).length : Int)

/-- The store after complaint 1 was opened: the current complaint has its two comments (ids 10
and 11) loaded and `comments_count` 2. -/
def readingOne : ComplaintsState :=
  (fetchComplaint ComplaintsState.init 1 (.ok detailOne)).state

/-! # Properties

## Lemmas on the array helpers -/

theorem length_mutateAt {α : Type} (f : α → α) (xs : List α) (i : Nat) :
    (mutateAt f xs i).length = xs.length := by
  induction xs generalizing i with
  | nil => rfl
  | cons x xs ih =>
    cases i with
    | zero => rfl
    | succ i => simp [mutateAt, ih]

theorem getElem?_mutateAt {α : Type} (f : α → α) (xs : List α) (i j : Nat) :
    (mutateAt f xs i)[j]? = if j = i then xs[j]?.map f else xs[j]? := by
  induction xs generalizing i j with
  | nil => simp [mutateAt]
  | cons x xs ih =>
    cases i with
    | zero =>
      cases j with
      | zero => simp [mutateAt]
      | succ j => simp [mutateAt]
    | succ i =>
      cases j with
      | zero => simp [mutateAt]
      | succ j => simp [mutateAt, ih]

theorem findIndex_eq_none {α : Type} (p : α → Bool) (xs : List α) :
    findIndex p xs = none ↔ ∀ x ∈ xs, p x = false := by
  induction xs with
  | nil => simp [findIndex]
  | cons x xs ih =>
    by_cases h : p x = true
    · simp [findIndex, h]
    · simp [findIndex, h, ih]

theorem findIndex_eq_some {α : Type} (p : α → Bool) (xs : List α) (i : Nat) :
    findIndex p xs = some i ↔
      (∃ x, xs[i]? = some x ∧ p x = true) ∧
        ∀ j y, j < i → xs[j]? = some y → p y = false := by
  induction xs generalizing i with
  | nil => simp [findIndex]
  | cons x xs ih =>
    by_cases h : p x = true
    · cases i with
      | zero => simp [findIndex, h]
      | succ i =>
        simp only [findIndex, h, if_true]
        constructor
        · intro h0
          simp at h0
        · rintro ⟨_, h2⟩
          have := h2 0 x (Nat.succ_pos i) (by simp)
          simp [h] at this
    · have hx : p x = false := by simpa using h
      cases i with
      | zero => simp [findIndex, hx]
      | succ i =>
        simp only [findIndex, hx, Bool.false_eq_true, if_false, Option.map_eq_some',
          Nat.add_right_cancel_iff, exists_eq_right, ih, List.getElem?_cons_succ]
        constructor
        · rintro ⟨h1, h2⟩
          refine ⟨h1, ?_⟩
          intro j y hj hy
          cases j with
          | zero =>
            simp at hy
            subst hy
            exact hx
          | succ j =>
            simp at hy
            exact h2 j y (by omega) hy
        · rintro ⟨h1, h2⟩
          refine ⟨h1, ?_⟩
          intro j y hj hy
          exact h2 (j + 1) y (by omega) (by simpa using hy)

theorem nodup_ids_first {xs : List Complaint} (hnd : (xs.map (fun c => c.id)).Nodup)
    {i j : Nat} {c d : Complaint} (hj : j < i) (hi : xs[i]? = some c) (hd : xs[j]? = some d) :
    d.id ≠ c.id := by
  induction xs generalizing i j with
  | nil => simp at hi
  | cons x xs ih =>
    simp only [List.map_cons, List.nodup_cons, List.mem_map, not_exists, not_and] at hnd
    cases i with
    | zero => omega
    | succ i =>
      simp only [List.getElem?_cons_succ] at hi
      cases j with
      | zero =>
        simp only [List.getElem?_cons_zero, Option.some.injEq] at hd
        subst hd
        intro h
        exact hnd.1 c (List.getElem?_mem hi) h.symm
      | succ j =>
        simp only [List.getElem?_cons_succ] at hd
        exact ih hnd.2 (by omega) hi hd

/-! ## Complaints store: votes -/

/-- The list after `applyCounts`, position by position. -/
theorem applyCounts_complaints (s : ComplaintsState) (complaintId : Nat) (r : VoteCounts)
    (userVote : Option String) (i : Nat) :
    (applyCounts s complaintId r userVote).complaints[i]? =
      if findIndex (fun c => decide (c.id = complaintId)) s.complaints = some i
      then s.complaints[i]?.map (updateCounts r userVote) else s.complaints[i]? := by
  unfold applyCounts
  cases h : findIndex (fun c => decide (c.id = complaintId)) s.complaints with
  | none => simp
  | some k =>
    simp only [getElem?_mutateAt, Option.some.injEq]
    by_cases hik : i = k
    · simp [hik]
    · have : ¬ k = i := fun e => hik e.symm
      simp [hik, this]

/-- C1: after `vote(id, voteType)` with a successful reply carrying `support_count` and
`oppose_count`, the action returns success with the reply; the list entry with that id (the
first one, which is the only one when ids are distinct) and the current complaint, when its id
is `id`, carry the reply's two counts and `user_vote = voteType` with every other field kept;
every other list entry is unchanged, the list keeps its length, and a cache that does not
hold the id is unchanged. -/
theorem vote_success_updates_both_caches (s : ComplaintsState) (complaintId : Nat)
    (voteType : String) (isAnonymous : Bool) (r : VoteCounts) :
    let o := vote s complaintId voteType isAnonymous (.ok r)
    o.result = .ok r ∧ o.result.success = true ∧
    o.state.complaints.length = s.complaints.length ∧
    (∀ (i : Nat) (c : Complaint), s.complaints[i]? = some c → c.id = complaintId →
      (∀ (j : Nat) (d : Complaint), j < i → s.complaints[j]? = some d → d.id ≠ complaintId) →
      o.state.complaints[i]? =
        some { c with support_count := r.support_count, oppose_count := r.oppose_count,
                      user_vote := some voteType }) ∧
    (∀ (i : Nat) (c : Complaint), s.complaints[i]? = some c →
      (c.id ≠ complaintId ∨
        ∃ (j : Nat) (d : Complaint), j < i ∧ s.complaints[j]? = some d ∧ d.id = complaintId) →
      o.state.complaints[i]? = some c) ∧
    ((s.complaints.map (fun c => c.id)).Nodup →
      ∀ (i : Nat) (c : Complaint), s.complaints[i]? = some c →
      o.state.complaints[i]? =
        some (if c.id = complaintId then
                { c with support_count := r.support_count, oppose_count := r.oppose_count,
                         user_vote := some voteType }
              else c)) ∧
    ((∀ c ∈ s.complaints, c.id ≠ complaintId) → o.state.complaints = s.complaints) ∧
    (∀ c, s.currentComplaint = some c → c.id = complaintId →
      o.state.currentComplaint =
        some { c with support_count := r.support_count, oppose_count := r.oppose_count,
                      user_vote := some voteType }) ∧
    (∀ c, s.currentComplaint = some c → c.id ≠ complaintId →
      o.state.currentComplaint = some c) ∧
    (s.currentComplaint = none → o.state.currentComplaint = none) := by
  intro o
  have hfirst : ∀ (i : Nat) (c : Complaint), s.complaints[i]? = some c → c.id = complaintId →
      (∀ (j : Nat) (d : Complaint), j < i → s.complaints[j]? = some d → d.id ≠ complaintId) →
      o.state.complaints[i]? = some (updateCounts r (some voteType) c) := by
    intro i c hc hid hfst
    have hfi : findIndex (fun c => decide (c.id = complaintId)) s.complaints = some i := by
      rw [findIndex_eq_some]
      refine ⟨⟨c, hc, by simpa using hid⟩, ?_⟩
      intro j d hj hd
      simpa using hfst j d hj hd
    show (applyCounts s complaintId r (some voteType)).complaints[i]? = _
    rw [applyCounts_complaints, if_pos hfi, hc]
    rfl
  have hother : ∀ (i : Nat) (c : Complaint), s.complaints[i]? = some c →
      (c.id ≠ complaintId ∨
        ∃ (j : Nat) (d : Complaint), j < i ∧ s.complaints[j]? = some d ∧ d.id = complaintId) →
      o.state.complaints[i]? = some c := by
    intro i c hc hcase
    have hfi : ¬ findIndex (fun c => decide (c.id = complaintId)) s.complaints = some i := by
      rw [findIndex_eq_some]
      rintro ⟨⟨x, hx, hpx⟩, hlt⟩
      rw [hc] at hx
      cases hx
      rcases hcase with hne | ⟨j, d, hj, hd, hdid⟩
      · exact hne (by simpa using hpx)
      · have := hlt j d hj hd
        simp [hdid] at this
    show (applyCounts s complaintId r (some voteType)).complaints[i]? = _
    rw [applyCounts_complaints, if_neg hfi, hc]
  refine ⟨rfl, rfl, ?_, hfirst, hother, ?_, ?_, ?_, ?_, ?_⟩
  · show (applyCounts s complaintId r (some voteType)).complaints.length = _
    unfold applyCounts
    cases findIndex (fun c => decide (c.id = complaintId)) s.complaints with
    | none => rfl
    | some k => exact length_mutateAt _ _ _
  · intro hnd i c hc
    by_cases hid : c.id = complaintId
    · rw [if_pos hid]
      refine hfirst i c hc hid ?_
      intro j d hj hd
      rw [← hid]
      exact nodup_ids_first hnd hj hc hd
    · rw [if_neg hid]
      exact hother i c hc (Or.inl hid)
  · intro hno
    apply List.ext_getElem?
    intro i
    cases hc : s.complaints[i]? with
    | none =>
      show (applyCounts s complaintId r (some voteType)).complaints[i]? = _
      rw [applyCounts_complaints, hc]
      simp
    | some c => exact hother i c hc (Or.inl (hno c (List.getElem?_mem hc)))
  · intro c hc hid
    show (applyCounts s complaintId r (some voteType)).currentComplaint = _
    simp [applyCounts, hc, hid, updateCounts]
  · intro c hc hid
    show (applyCounts s complaintId r (some voteType)).currentComplaint = _
    simp [applyCounts, hc, hid]
  · intro hc
    show (applyCounts s complaintId r (some voteType)).currentComplaint = _
    simp [applyCounts, hc]

/-- C1 at `vote(1, 'support')` with complaint 1 both the list head and the current complaint and
the reply `support_count: 5, oppose_count: 2`: both caches show 5, 2 and `'support'`, and the
other list entry is untouched. -/
theorem vote_scenario_witness :
    (vote viewingOne 1 "support" true (.ok ⟨5, 2⟩)).state.complaints[0]? =
        some { complaintOne with support_count := 5, oppose_count := 2,
                                 user_vote := some "support" } ∧
      (vote viewingOne 1 "support" true (.ok ⟨5, 2⟩)).state.complaints[1]? =
        some complaintTwo ∧
      (vote viewingOne 1 "support" true (.ok ⟨5, 2⟩)).state.currentComplaint =
        some { complaintOne with support_count := 5, oppose_count := 2,
                                 user_vote := some "support" } :=
  have h := vote_success_updates_both_caches viewingOne 1 "support" true ⟨5, 2⟩
  ⟨h.2.2.2.1 0 complaintOne rfl rfl (fun j _ hj _ => absurd hj (Nat.not_lt_zero j)),
    h.2.2.2.2.1 1 complaintTwo rfl (Or.inl (by decide)),
    h.2.2.2.2.2.2.2.1 complaintOne rfl rfl⟩

/-- The call `xs.find(p)` sees the mutation made at `xs.findIndex(p)` when the mutation keeps
the test `p`. -/
theorem find_mutateAt_findIndex {α : Type} (p : α → Bool) (f : α → α)
    (hp : ∀ x, p (f x) = p x) (xs : List α) :
    find p (match findIndex p xs with
            | some i => mutateAt f xs i
            | none => xs) = (find p xs).map f := by
  induction xs with
  | nil => rfl
  | cons x xs ih =>
    by_cases h : p x = true
    · simp [findIndex, find, mutateAt, h, hp]
    · have hx : p x = false := by simpa using h
      simp only [findIndex, hx, Bool.false_eq_true, if_false, find]
      cases hfi : findIndex p xs with
      | none =>
        rw [hfi] at ih
        simpa [find, hx] using ih
      | some i =>
        rw [hfi] at ih
        simpa [find, hx, mutateAt] using ih

theorem listEntry_applyCounts (s : ComplaintsState) (id : Nat) (r : VoteCounts)
    (userVote : Option String) :
    listEntry (applyCounts s id r userVote) id = (listEntry s id).map (updateCounts r userVote) :=
  find_mutateAt_findIndex (fun c : Complaint => decide (c.id = id)) (updateCounts r userVote)
    (fun _ => rfl) s.complaints

theorem currentEntry_applyCounts (s : ComplaintsState) (id : Nat) (r : VoteCounts)
    (userVote : Option String) :
    currentEntry (applyCounts s id r userVote) id =
      (currentEntry s id).map (updateCounts r userVote) := by
  unfold currentEntry applyCounts
  cases hc : s.currentComplaint with
  | none => rfl
  | some c =>
    by_cases hid : c.id = id
    · simp [hid, updateCounts]
    · simp [hid]

theorem votesAgree_applyCounts (s : ComplaintsState) (id : Nat) (r : VoteCounts)
    (userVote : Option String) : votesAgree (applyCounts s id r userVote) id := by
  intro a b ha hb
  rw [listEntry_applyCounts] at ha
  rw [currentEntry_applyCounts] at hb
  simp only [Option.map_eq_some'] at ha hb
  obtain ⟨a0, _, rfl⟩ := ha
  obtain ⟨b0, _, rfl⟩ := hb
  exact ⟨rfl, rfl, rfl⟩

theorem votesAgree_of_succeeded (id : Nat) (s : ComplaintsState) (op : VoteOp)
    (h : op.succeeded = true) : votesAgree (op.apply id s) id := by
  cases op with
  | vote voteType isAnonymous reply =>
    cases reply with
    | ok r => exact votesAgree_applyCounts s id r (some voteType)
    | error e => simp [VoteOp.succeeded] at h
  | removeVote reply =>
    cases reply with
    | ok r => exact votesAgree_applyCounts s id r none
    | error e => simp [VoteOp.succeeded] at h

theorem votesAgree_step (id : Nat) (s : ComplaintsState) (op : VoteOp)
    (h : votesAgree s id) : votesAgree (op.apply id s) id := by
  cases op with
  | vote voteType isAnonymous reply =>
    cases reply with
    | ok r => exact votesAgree_applyCounts s id r (some voteType)
    | error e => exact h
  | removeVote reply =>
    cases reply with
    | ok r => exact votesAgree_applyCounts s id r none
    | error e => exact h

/-- With distinct keys, the element `find` returns for a key is the only one with that
key. -/
theorem find_key_of_mem_nodup {α : Type} (key : α → Nat) (id : Nat) (xs : List α)
    (hnd : (xs.map key).Nodup) (x : α) (hx : x ∈ xs) (hid : key x = id) :
    find (fun m => decide (key m = id)) xs = some x := by
  induction xs with
  | nil => simp at hx
  | cons y ys ih =>
    simp only [List.map_cons, List.nodup_cons, List.mem_map, not_exists, not_and] at hnd
    rcases List.mem_cons.mp hx with rfl | hmem
    · simp [find, hid]
    · have hy : ¬ key y = id := by
        intro e
        exact hnd.1 x hmem (by rw [hid, e])
      simp only [find, hy, decide_False, Bool.false_eq_true, if_false]
      exact ih hnd.2 hmem

theorem map_mutateAt_of_fixed {α β : Type} (g : α → β) (f : α → α) (hg : ∀ x, g (f x) = g x)
    (xs : List α) (i : Nat) : (mutateAt f xs i).map g = xs.map g := by
  induction xs generalizing i with
  | nil => rfl
  | cons x xs ih =>
    cases i with
    | zero => simp [mutateAt, hg]
    | succ i => simp [mutateAt, ih]

theorem ids_applyCounts (s : ComplaintsState) (id : Nat) (r : VoteCounts)
    (userVote : Option String) :
    (applyCounts s id r userVote).complaints.map (fun c => c.id) =
      s.complaints.map (fun c => c.id) := by
  unfold applyCounts
  cases findIndex (fun c => decide (c.id = id)) s.complaints with
  | none => rfl
  | some i =>
    exact map_mutateAt_of_fixed (fun c : Complaint => c.id) (updateCounts r userVote)
      (fun _ => rfl) s.complaints i

theorem ids_runVotes (id : Nat) (s : ComplaintsState) (ops : List VoteOp) :
    (runVotes id s ops).complaints.map (fun c => c.id) = s.complaints.map (fun c => c.id) := by
  induction ops generalizing s with
  | nil => rfl
  | cons op ops ih =>
    show (runVotes id (op.apply id s) ops).complaints.map _ = _
    rw [ih]
    cases op with
    | vote voteType isAnonymous reply =>
      cases reply with
      | ok r => exact ids_applyCounts s id r (some voteType)
      | error e => rfl
    | removeVote reply =>
      cases reply with
      | ok r => exact ids_applyCounts s id r none
      | error e => rfl

/-- C2 fails as stated: complaint 1 is in the list with 3 supporters and is the current
complaint with 4 (two fetches, a vote by another user in between); a `vote(1, 'support')` whose
request fails with no response leaves both caches as they were, so after it resolves both
caches hold complaint 1 and their `support_count` differ. -/
theorem failed_vote_leaves_caches_apart :
    listEntry (runVotes 1 staleList [VoteOp.vote "support" true (.error ⟨none⟩)]) 1 =
        some complaintOne ∧
      currentEntry (runVotes 1 staleList [VoteOp.vote "support" true (.error ⟨none⟩)]) 1 =
        some { complaintOne with support_count := 4 } ∧
      ¬ votesAgree (runVotes 1 staleList [VoteOp.vote "support" true (.error ⟨none⟩)]) 1 := by
  refine ⟨rfl, rfl, ?_⟩
  intro h
  have := (h complaintOne { complaintOne with support_count := 4 } rfl rfl).1
  exact absurd this (by decide)

/-- C2, amended: for every sequence of `vote` and `removeVote` operations on one complaint id,
each succeeding or failing, if the list entry and the current-complaint entry for that id
agreed on `support_count`, `oppose_count` and `user_vote` before the sequence, or some
operation of the sequence succeeded, then they agree after the sequence resolves whenever
both caches hold an entry for the id; `ops` ranges over every prefix of a run, so this holds
after each operation.  The list entry for an id is the first with that id; when the cached
ids are distinct every list entry with that id agrees with the current complaint. -/
theorem votes_keep_list_and_detail_agreeing (id : Nat) (s : ComplaintsState)
    (ops : List VoteOp)
    (h : votesAgree s id ∨ ∃ op ∈ ops, op.succeeded = true) :
    votesAgree (runVotes id s ops) id ∧
      ((s.complaints.map (fun c => c.id)).Nodup →
        ∀ a ∈ (runVotes id s ops).complaints, a.id = id →
        ∀ b : Complaint, (runVotes id s ops).currentComplaint = some b → b.id = id →
          a.support_count = b.support_count ∧ a.oppose_count = b.oppose_count ∧
            a.user_vote = b.user_vote) := by
  have hagree : votesAgree (runVotes id s ops) id := by
    induction ops generalizing s with
    | nil =>
      rcases h with h | ⟨op, hop, _⟩
      · exact h
      · simp at hop
    | cons op ops ih =>
      show votesAgree (runVotes id (op.apply id s) ops) id
      by_cases hs : op.succeeded = true
      · exact ih _ (Or.inl (votesAgree_of_succeeded id s op hs))
      · rcases h with h | ⟨op1, hop, hsucc⟩
        · exact ih _ (Or.inl (votesAgree_step id s op h))
        · rcases List.mem_cons.mp hop with rfl | hmem
          · exact absurd hsucc hs
          · exact ih _ (Or.inr ⟨op1, hmem, hsucc⟩)
  refine ⟨hagree, ?_⟩
  intro hnd a ha haid b hb hbid
  have hnd1 : ((runVotes id s ops).complaints.map (fun c => c.id)).Nodup := by
    rw [ids_runVotes]
    exact hnd
  have hfa : listEntry (runVotes id s ops) id = some a :=
    find_key_of_mem_nodup (fun c : Complaint => c.id) id _ hnd1 a ha haid
  have hfb : currentEntry (runVotes id s ops) id = some b := by
    simp [currentEntry, hb, hbid]
  exact hagree a b hfa hfb

/-- C2 amended, at a run on the stale caches: a failed vote, then a successful `removeVote`
answering 4 and 1, then a failed vote; both caches hold complaint 1 and agree. -/
theorem votes_agree_witness :
    (∃ op ∈ [VoteOp.vote "support" true (.error ⟨none⟩), VoteOp.removeVote (.ok ⟨4, 1⟩),
        VoteOp.vote "oppose" true (.error ⟨some ⟨500, none⟩⟩)], op.succeeded = true) ∧
      votesAgree
        (runVotes 1 staleList
          [VoteOp.vote "support" true (.error ⟨none⟩), VoteOp.removeVote (.ok ⟨4, 1⟩),
            VoteOp.vote "oppose" true (.error ⟨some ⟨500, none⟩⟩)]) 1 :=
  ⟨⟨VoteOp.removeVote (.ok ⟨4, 1⟩), by simp, rfl⟩,
    (votes_keep_list_and_detail_agreeing 1 staleList _
      (Or.inr ⟨VoteOp.removeVote (.ok ⟨4, 1⟩), by simp, rfl⟩)).1⟩

/-! ## Lemmas on plain objects -/

theorem JSObj.get_set (o : JSObj) (k : String) (v : JSVal) (k1 : String) :
    JSObj.get (JSObj.set o k v) k1 = if k = k1 then some v else JSObj.get o k1 := by
  induction o with
  | nil => simp [JSObj.set, JSObj.get]
  | cons e rest ih =>
    obtain ⟨k0, v0⟩ := e
    by_cases h0 : k0 = k
    · subst h0
      by_cases h1 : k0 = k1
      · simp [JSObj.set, JSObj.get, h1]
      · simp [JSObj.set, JSObj.get, h1]
    · by_cases h1 : k0 = k1
      · subst h1
        have : ¬ k = k0 := fun e => h0 e.symm
        simp [JSObj.set, JSObj.get, h0, this]
      · simp [JSObj.set, JSObj.get, h0, h1, ih]

theorem JSObj.get_eq_none_iff (o : JSObj) (k : String) :
    JSObj.get o k = none ↔ k ∉ JSObj.keys o := by
  induction o with
  | nil => simp [JSObj.get, JSObj.keys]
  | cons e rest ih =>
    obtain ⟨k0, v0⟩ := e
    by_cases h0 : k0 = k
    · simp [JSObj.get, JSObj.keys, h0]
    · have : ¬ k = k0 := fun e => h0 e.symm
      simp only [JSObj.keys] at ih
      simp [JSObj.get, JSObj.keys, h0, this, ih]

theorem JSObj.mem_of_get (o : JSObj) (k : String) (v : JSVal) (h : JSObj.get o k = some v) :
    (k, v) ∈ o := by
  induction o with
  | nil => simp [JSObj.get] at h
  | cons e rest ih =>
    obtain ⟨k0, v0⟩ := e
    by_cases h0 : k0 = k
    · simp [JSObj.get, h0] at h
      simp [h0, h]
    · simp [JSObj.get, h0] at h
      exact List.mem_cons_of_mem _ (ih h)

theorem JSObj.get_of_mem (o : JSObj) (hnd : (JSObj.keys o).Nodup) (k : String) (v : JSVal)
    (h : (k, v) ∈ o) : JSObj.get o k = some v := by
  induction o with
  | nil => simp at h
  | cons e rest ih =>
    obtain ⟨k0, v0⟩ := e
    simp only [JSObj.keys, List.map_cons, List.nodup_cons, List.mem_map, not_exists,
      not_and] at hnd
    rcases List.mem_cons.mp h with heq | hmem
    · cases heq
      simp [JSObj.get]
    · have hne : ¬ k0 = k := by
        intro e
        exact hnd.1 (k, v) hmem e.symm
      simp only [JSObj.get, hne, if_false]
      exact ih hnd.2 hmem

theorem JSObj.keys_set (o : JSObj) (k : String) (v : JSVal) :
    JSObj.keys (JSObj.set o k v) = if k ∈ JSObj.keys o then JSObj.keys o else JSObj.keys o ++ [k] := by
  induction o with
  | nil => simp [JSObj.set, JSObj.keys]
  | cons e rest ih =>
    obtain ⟨k0, v0⟩ := e
    simp only [JSObj.keys] at ih
    by_cases h0 : k0 = k
    · simp [JSObj.set, JSObj.keys, h0]
    · have hne : ¬ k = k0 := fun e => h0 e.symm
      by_cases hm : k ∈ List.map Prod.fst rest
      · simp only [JSObj.set, h0, if_false, JSObj.keys, List.map_cons, ih, hm, if_true,
          List.mem_cons, or_true]
      · simp only [JSObj.set, h0, if_false, JSObj.keys, List.map_cons, ih, hm, if_false,
          List.mem_cons, hne, or_self, List.cons_append]

theorem JSObj.nodup_keys_set (o : JSObj) (k : String) (v : JSVal)
    (h : (JSObj.keys o).Nodup) : (JSObj.keys (JSObj.set o k v)).Nodup := by
  rw [JSObj.keys_set]
  by_cases hm : k ∈ JSObj.keys o
  · simpa [hm] using h
  · simp only [hm, if_false]
    exact List.Nodup.append h (List.nodup_singleton k) (by simpa using hm)

theorem JSObj.get_foldl_set (src : JSObj) (ks : List String) (target : JSObj) (k : String) :
    JSObj.get (ks.foldl (fun acc k0 => JSObj.set acc k0 (JSObj.read src k0)) target) k =
      if k ∈ ks then some (JSObj.read src k) else JSObj.get target k := by
  induction ks generalizing target with
  | nil => simp
  | cons k0 ks ih =>
    simp only [List.foldl_cons, ih, JSObj.get_set, List.mem_cons]
    by_cases hk : k ∈ ks
    · simp [hk]
    · by_cases h0 : k0 = k
      · subst h0
        simp [hk]
      · have : ¬ k = k0 := fun e => h0 e.symm
        simp [hk, h0, this]

/-- Lookup in a spread: the spread source wins on a shared key. -/
theorem JSObj.get_spread (target src : JSObj) (k : String) :
    JSObj.get (JSObj.spread target src) k =
      match JSObj.get src k with
      | some v => some v
      | none => JSObj.get target k := by
  unfold JSObj.spread
  rw [JSObj.get_foldl_set]
  cases h : JSObj.get src k with
  | none =>
    have := (JSObj.get_eq_none_iff src k).mp h
    simp [this]
  | some v =>
    have hm : k ∈ JSObj.keys src := by
      by_contra hc
      rw [(JSObj.get_eq_none_iff src k).mpr hc] at h
      cases h
    simp [hm, JSObj.read, h]

theorem JSObj.nodup_keys_spread (target src : JSObj) (h : (JSObj.keys target).Nodup) :
    (JSObj.keys (JSObj.spread target src)).Nodup := by
  unfold JSObj.spread
  generalize JSObj.keys src = ks
  induction ks generalizing target with
  | nil => simpa using h
  | cons k0 ks ih =>
    simp only [List.foldl_cons]
    exact ih _ (JSObj.nodup_keys_set target k0 _ h)

theorem JSObj.get_delete (o : JSObj) (k k1 : String) :
    JSObj.get (JSObj.delete o k) k1 = if k = k1 then none else JSObj.get o k1 := by
  induction o with
  | nil => simp [JSObj.delete, JSObj.get]
  | cons e rest ih =>
    obtain ⟨k0, v0⟩ := e
    simp only [JSObj.delete, ne_eq, decide_not] at ih
    by_cases h0 : k0 = k
    · subst h0
      by_cases h1 : k0 = k1
      · simpa [JSObj.delete, JSObj.get, h1] using ih
      · simpa [JSObj.delete, JSObj.get, h1] using ih
    · by_cases h1 : k0 = k1
      · subst h1
        have : ¬ k = k0 := fun e => h0 e.symm
        simp [JSObj.delete, JSObj.get, h0, this]
      · simpa [JSObj.delete, JSObj.get, h0, h1] using ih

theorem JSObj.nodup_keys_delete (o : JSObj) (k : String) (h : (JSObj.keys o).Nodup) :
    (JSObj.keys (JSObj.delete o k)).Nodup := by
  unfold JSObj.keys JSObj.delete
  exact List.Nodup.sublist (List.Sublist.map _ (List.filter_sublist _)) h

/-! ## Complaints store: list fetch and filters -/

theorem keepTruthy_idem (o : Option JSVal) : keepTruthy (keepTruthy o) = keepTruthy o := by
  cases o with
  | none => rfl
  | some v =>
    by_cases h : v.truthy = true
    · simp [keepTruthy, h]
    · simp [keepTruthy, h]

/-- One round of the pruning loop of `fetchComplaints`. -/
theorem get_prune_step (acc : JSObj) (k0 k : String) :
    JSObj.get (if !(JSObj.read acc k0).truthy then JSObj.delete acc k0 else acc) k =
      if k0 = k then keepTruthy (JSObj.get acc k) else JSObj.get acc k := by
  by_cases ht : (JSObj.read acc k0).truthy = true
  · simp only [ht, Bool.not_true, Bool.false_eq_true, if_false]
    by_cases hk : k0 = k
    · subst hk
      simp only [if_true]
      unfold JSObj.read at ht
      cases hg : JSObj.get acc k0 with
      | none => simp [hg, JSVal.truthy] at ht
      | some v =>
        simp only [hg, Option.getD_some] at ht
        simp [keepTruthy, ht]
    · simp [hk]
  · have hf : (JSObj.read acc k0).truthy = false := by simpa using ht
    simp only [hf, Bool.not_false, if_true, JSObj.get_delete]
    by_cases hk : k0 = k
    · subst hk
      simp only [if_true]
      unfold JSObj.read at hf
      cases hg : JSObj.get acc k0 with
      | none => rfl
      | some v =>
        simp only [hg, Option.getD_some] at hf
        simp [keepTruthy, hf]
    · simp [hk]

theorem get_prune_foldl (ks : List String) (acc : JSObj) (k : String) :
    JSObj.get
        (ks.foldl
          (fun acc key => if !(JSObj.read acc key).truthy then JSObj.delete acc key else acc)
          acc) k =
      if k ∈ ks then keepTruthy (JSObj.get acc k) else JSObj.get acc k := by
  induction ks generalizing acc with
  | nil => simp
  | cons k0 ks ih =>
    simp only [List.foldl_cons, ih, get_prune_step, List.mem_cons]
    by_cases h0 : k0 = k
    · subst h0
      by_cases hk : k0 ∈ ks
      · simp [hk, keepTruthy_idem]
      · simp [hk]
    · have : ¬ k = k0 := fun e => h0 e.symm
      simp [h0, this]

/-- Lookup after the pruning loop: a key survives exactly when its value is truthy. -/
theorem get_removeEmpty (q : JSObj) (k : String) :
    JSObj.get (removeEmpty q) k = keepTruthy (JSObj.get q k) := by
  unfold removeEmpty
  rw [get_prune_foldl]
  by_cases hk : k ∈ JSObj.keys q
  · simp [hk]
  · simp [hk, (JSObj.get_eq_none_iff q k).mpr hk, keepTruthy]

theorem nodup_keys_removeEmpty (q : JSObj) (h : (JSObj.keys q).Nodup) :
    (JSObj.keys (removeEmpty q)).Nodup := by
  unfold removeEmpty
  generalize JSObj.keys q = ks
  induction ks generalizing q with
  | nil => simpa using h
  | cons k0 ks ih =>
    simp only [List.foldl_cons]
    apply ih
    by_cases ht : (JSObj.read q k0).truthy = true
    · simpa [ht] using h
    · have hf : (JSObj.read q k0).truthy = false := by simpa using ht
      simpa [hf] using JSObj.nodup_keys_delete q k0 h

theorem get_mergedParams (s : ComplaintsState) (params : JSObj) (k : String) :
    JSObj.get (mergedParams s params) k = specMergedParam s.pagination s.filters params k := by
  unfold mergedParams specMergedParam
  rw [JSObj.get_spread, JSObj.get_spread]
  cases JSObj.get params k with
  | some v => rfl
  | none =>
    cases JSObj.get s.filters k with
    | some v => rfl
    | none =>
      by_cases h1 : k = "page"
      · subst h1
        simp [JSObj.get]
      · by_cases h2 : k = "per_page"
        · subst h2
          simp [JSObj.get]
        · have h1s : ¬ "page" = k := fun e => h1 e.symm
          have h2s : ¬ "per_page" = k := fun e => h2 e.symm
          simp [JSObj.get, h1, h2, h1s, h2s]

theorem nodup_keys_mergedParams (s : ComplaintsState) (params : JSObj) :
    (JSObj.keys (mergedParams s params)).Nodup := by
  unfold mergedParams
  apply JSObj.nodup_keys_spread
  apply JSObj.nodup_keys_spread
  simp [JSObj.keys]

theorem truthy_ne_empty (v : JSVal) (h : v.truthy = true) :
    v ≠ .str "" ∧ v ≠ .null ∧ v ≠ .undefined := by
  refine ⟨?_, ?_, ?_⟩ <;> intro e <;> subst e <;> simp [JSVal.truthy] at h

/-- C6: for every pagination state, filter state, override object and reply, `fetchComplaints`
issues one `GET /complaints` whose query parameters `q` hold each key once and are exactly
the entries `(k, v)` of the merge of `page`/`per_page`, then the filters, then the overrides
(later wins) whose merged value `v` is truthy; so no outgoing value is `''`, `null` or
`undefined`, and a key whose override is truthy carries the override's value. -/
theorem fetchComplaints_sends_truthy_merge (s : ComplaintsState) (params : JSObj)
    (reply : Except ApiError ListResponse) :
    ∃ q : JSObj,
      (fetchComplaints s params reply).requests =
          [{ method := .GET, url := "/complaints", params := q, data := [] }] ∧
        (JSObj.keys q).Nodup ∧
        (∀ (k : String) (v : JSVal), (k, v) ∈ q ↔
          (specMergedParam s.pagination s.filters params k = some v ∧ v.truthy = true)) ∧
        (∀ (k : String) (v : JSVal), (k, v) ∈ q → v ≠ .str "" ∧ v ≠ .null ∧ v ≠ .undefined) ∧
        (∀ (k : String) (v : JSVal), JSObj.get params k = some v → v.truthy = true →
          JSObj.get q k = some v ∧ (k, v) ∈ q) := by
  have hnd : (JSObj.keys (removeEmpty (mergedParams s params))).Nodup :=
    nodup_keys_removeEmpty _ (nodup_keys_mergedParams s params)
  have hget : ∀ (k : String) (v : JSVal),
      JSObj.get (removeEmpty (mergedParams s params)) k = some v ↔
        (specMergedParam s.pagination s.filters params k = some v ∧ v.truthy = true) := by
    intro k v
    rw [get_removeEmpty, get_mergedParams]
    cases specMergedParam s.pagination s.filters params k with
    | none => simp [keepTruthy]
    | some w =>
      by_cases hw : w.truthy = true
      · simp only [keepTruthy, hw, if_true, Option.some.injEq]
        constructor
        · intro e
          subst e
          exact ⟨rfl, hw⟩
        · intro e
          exact e.1
      · simp only [keepTruthy, hw, if_false, Option.some.injEq]
        constructor
        · intro e
          cases e
        · rintro ⟨e, hv⟩
          subst e
          exact absurd hv hw
  have hmem : ∀ (k : String) (v : JSVal), (k, v) ∈ removeEmpty (mergedParams s params) ↔
      (specMergedParam s.pagination s.filters params k = some v ∧ v.truthy = true) := by
    intro k v
    rw [← hget]
    exact ⟨JSObj.get_of_mem _ hnd k v, JSObj.mem_of_get _ k v⟩
  refine ⟨removeEmpty (mergedParams s params), ?_, hnd, hmem, ?_, ?_⟩
  · cases reply <;> rfl
  · intro k v hkv
    exact truthy_ne_empty v ((hmem k v).mp hkv).2
  · intro k v hp hv
    have hspec : specMergedParam s.pagination s.filters params k = some v := by
      simp [specMergedParam, hp]
    exact ⟨(hget k v).mpr ⟨hspec, hv⟩, (hmem k v).mpr ⟨hspec, hv⟩⟩

/-- C7: for every prior state and successful list reply with body `data: L, pagination: P`,
after `fetchComplaints` resolves the list cache is `L` and the pagination cache is `P`
(nothing of the previous ones survives), the current complaint and the filters are unchanged,
and the result is `success: true`. -/
theorem fetchComplaints_replaces_list_and_pagination (s : ComplaintsState) (params : JSObj)
    (L : List Complaint) (P : JSObj) :
    (fetchComplaints s params (.ok { data := L, pagination := P })).state.complaints = L ∧
      (fetchComplaints s params (.ok { data := L, pagination := P })).state.pagination = P ∧
      (fetchComplaints s params (.ok { data := L, pagination := P })).state.currentComplaint =
        s.currentComplaint ∧
      (fetchComplaints s params (.ok { data := L, pagination := P })).state.filters =
        s.filters ∧
      (fetchComplaints s params (.ok { data := L, pagination := P })).result = .ok () ∧
      (fetchComplaints s params (.ok { data := L, pagination := P })).result.success = true :=
  ⟨rfl, rfl, rfl, rfl, rfl, rfl⟩

/-- C7 at the scenario of the specification: from the store on page 3, a list reply with the
one complaint 1 and the pagination `total: 1, pages: 1, page: 1, per_page: 10` leaves exactly
that list and that pagination. -/
theorem fetchComplaints_scenario_witness :
    (fetchComplaints pageThree []
        (.ok { data := [complaintOne],
               pagination := [("total", .num 1), ("pages", .num 1), ("page", .num 1),
                 ("per_page", .num 10)] })).state.complaints = [complaintOne] ∧
      (fetchComplaints pageThree []
        (.ok { data := [complaintOne],
               pagination := [("total", .num 1), ("pages", .num 1), ("page", .num 1),
                 ("per_page", .num 10)] })).state.pagination =
        [("total", .num 1), ("pages", .num 1), ("page", .num 1), ("per_page", .num 10)] :=
  have h := fetchComplaints_replaces_list_and_pagination pageThree [] [complaintOne]
    [("total", .num 1), ("pages", .num 1), ("page", .num 1), ("per_page", .num 10)]
  ⟨h.1, h.2.1⟩

/-- C8: for every state and patch object, after `setFilters(patch)` every filter key reads the
patch's value when the patch has the key and the old value otherwise (each key held once),
`pagination.page` is 1, every other pagination field (`per_page`, `total`, `pages`) is
unchanged, and the list cache and the current complaint are unchanged. -/
theorem setFilters_merges_and_resets_page (s : ComplaintsState) (patch : JSObj) :
    (∀ k : String, JSObj.get (setFilters s patch).filters k =
        match JSObj.get patch k with
        | some v => some v
        | none => JSObj.get s.filters k) ∧
      (JSObj.keys (setFilters s patch).filters).Nodup ∧
      JSObj.get (setFilters s patch).pagination "page" = some (.num 1) ∧
      (∀ k : String, k ≠ "page" →
        JSObj.get (setFilters s patch).pagination k = JSObj.get s.pagination k) ∧
      (setFilters s patch).complaints = s.complaints ∧
      (setFilters s patch).currentComplaint = s.currentComplaint := by
  refine ⟨?_, ?_, ?_, ?_, rfl, rfl⟩
  · intro k
    show JSObj.get (JSObj.spread (JSObj.spread [] s.filters) patch) k = _
    rw [JSObj.get_spread, JSObj.get_spread]
    cases JSObj.get patch k with
    | some v => rfl
    | none =>
      cases JSObj.get s.filters k with
      | some v => rfl
      | none => rfl
  · show (JSObj.keys (JSObj.spread (JSObj.spread [] s.filters) patch)).Nodup
    apply JSObj.nodup_keys_spread
    apply JSObj.nodup_keys_spread
    simp [JSObj.keys]
  · show JSObj.get (JSObj.set s.pagination "page" (.num 1)) "page" = _
    rw [JSObj.get_set]
    simp
  · intro k hk
    show JSObj.get (JSObj.set s.pagination "page" (.num 1)) k = _
    rw [JSObj.get_set]
    have : ¬ "page" = k := fun e => hk e.symm
    simp [this]

/-- C6 at the store on page 3 with `status: 'resolved'`, called with the overrides
`status: 'open', priority: null`: the request carries `page: 3` and `status: 'open'`, and no
`search` (empty filter) or `priority` (null override) key. -/
theorem fetchComplaints_params_witness :
    ∃ q : JSObj,
      (fetchComplaints pageThree [("status", .str "open"), ("priority", .null)]
          (.error ⟨none⟩)).requests =
          [{ method := .GET, url := "/complaints", params := q, data := [] }] ∧
        ("page", JSVal.num 3) ∈ q ∧ ("status", JSVal.str "open") ∈ q ∧
        (∀ v : JSVal, ("search", v) ∉ q) ∧ (∀ v : JSVal, ("priority", v) ∉ q) := by
  obtain ⟨q, hreq, _, hmem, _, hov⟩ :=
    fetchComplaints_sends_truthy_merge pageThree [("status", .str "open"), ("priority", .null)]
      (.error ⟨none⟩)
  refine ⟨q, hreq, (hmem _ _).mpr ⟨by decide, by decide⟩, (hov _ _ (by decide) (by decide)).2,
    ?_, ?_⟩
  · intro v hv
    have h := (hmem _ _).mp hv
    have h1 : v = JSVal.str "" := by
      have := h.1
      simp [specMergedParam, JSObj.get, pageThree, setFilters, setPage, JSObj.spread,
        JSObj.keys, JSObj.set, JSObj.read, ComplaintsState.init] at this
      exact this.symm
    rw [h1] at h
    exact absurd h.2 (by decide)
  · intro v hv
    have h := (hmem _ _).mp hv
    have h1 : v = JSVal.null := by
      have := h.1
      simp [specMergedParam, JSObj.get] at this
      exact this.symm
    rw [h1] at h
    exact absurd h.2 (by decide)

/-- C8 at the store on page 3: `setFilters` with `status: 'open'` puts the page back to 1,
sets the status filter and keeps `sort_by` and `per_page`. -/
theorem setFilters_witness :
    JSObj.get (setFilters pageThree [("status", .str "open")]).pagination "page" =
        some (.num 1) ∧
      JSObj.get pageThree.pagination "page" = some (.num 3) ∧
      JSObj.get (setFilters pageThree [("status", .str "open")]).filters "status" =
        some (.str "open") ∧
      JSObj.get (setFilters pageThree [("status", .str "open")]).filters "sort_by" =
        some (.str "created_at") ∧
      JSObj.get (setFilters pageThree [("status", .str "open")]).pagination "per_page" =
        some (.num 10) :=
  have h := setFilters_merges_and_resets_page pageThree [("status", .str "open")]
  ⟨h.2.2.1, by decide, (h.1 "status").trans (by decide), (h.1 "sort_by").trans (by decide),
    (h.2.2.2.1 "per_page" (by decide)).trans (by decide)⟩

/-! ## Notifications store: the unread counter -/

theorem NotifOp.apply_nonneg (s : NotificationsState) (op : NotifOp)
    (h : 0 ≤ s.unreadCount) : 0 ≤ (op.apply s).unreadCount := by
  cases op with
  | markAsRead id reply =>
    cases reply with
    | error e => exact h
    | ok u =>
      simp only [NotifOp.apply, Padosi.markAsRead]
      cases find (fun n => decide (n.id = id)) s.notifications with
      | none => exact h
      | some n =>
        by_cases hr : n.is_read = true
        · simpa [hr] using h
        · simp [hr]
  | deleteNotification id reply =>
    cases reply with
    | error e => exact h
    | ok u =>
      simp only [NotifOp.apply, Padosi.deleteNotification]
      cases find (fun n => decide (n.id = id)) s.notifications with
      | none => exact h
      | some n =>
        by_cases hr : n.is_read = true
        · simpa [hr] using h
        · simp [hr]
  | markAllAsRead reply =>
    cases reply with
    | error e => exact h
    | ok u => simp [NotifOp.apply, Padosi.markAllAsRead]
  | clearAll reply =>
    cases reply with
    | error e => exact h
    | ok u => simp [NotifOp.apply, Padosi.clearAll]

/-- C3 fails as stated: with three unread notifications cached and `unreadCount` 3, a
`markAllAsRead()` whose request fails with no response returns `success: false` and leaves
`unreadCount` at 3, not 0. -/
theorem failed_markAllAsRead_keeps_counter :
    0 ≤ inboxOfThree.unreadCount ∧
      (markAllAsRead inboxOfThree (.error ⟨none⟩)).result.success = false ∧
      (markAllAsRead inboxOfThree (.error ⟨none⟩)).state.unreadCount = 3 ∧
      (runNotifications inboxOfThree [NotifOp.markAllAsRead (.error ⟨none⟩)]).unreadCount ≠
        0 :=
  ⟨by decide, rfl, rfl, by decide⟩

/-- C3, amended: starting from a state with `unreadCount >= 0`, after every sequence of
`markAsRead`, `deleteNotification`, `markAllAsRead` and `clearAll` operations, each succeeding
or failing, `unreadCount` is `>= 0` (`ops` ranges over every prefix of a run); a
`markAllAsRead` issued then results in `unreadCount == 0` when its request succeeds and leaves
`unreadCount` unchanged when its request fails. -/
theorem unreadCount_never_negative (s : NotificationsState) (ops : List NotifOp)
    (h : 0 ≤ s.unreadCount) :
    0 ≤ (runNotifications s ops).unreadCount ∧
      (markAllAsRead (runNotifications s ops) (.ok ())).state.unreadCount = 0 ∧
      (∀ err : ApiError,
        (markAllAsRead (runNotifications s ops) (.error err)).state.unreadCount =
          (runNotifications s ops).unreadCount) := by
  refine ⟨?_, rfl, fun _ => rfl⟩
  induction ops generalizing s with
  | nil => exact h
  | cons op ops ih => exact ih (op.apply s) (NotifOp.apply_nonneg s op h)

/-- C3 amended, at a run on the inbox of three: a failed `markAllAsRead`, two `markAsRead`, a
delete of an id that is not cached, a `clearAll`. -/
theorem unreadCount_witness :
    0 ≤ inboxOfThree.unreadCount ∧
      0 ≤ (runNotifications inboxOfThree
            [NotifOp.markAllAsRead (.error ⟨none⟩), NotifOp.markAsRead 7 (.ok ()),
              NotifOp.markAsRead 7 (.ok ()), NotifOp.deleteNotification 12 (.ok ()),
              NotifOp.clearAll (.ok ())]).unreadCount :=
  ⟨by decide, (unreadCount_never_negative inboxOfThree _ (by decide)).1⟩

theorem countUnread_nonneg (xs : List Notification) : 0 ≤ countUnread xs := by
  unfold countUnread
  exact Int.ofNat_nonneg _

theorem countUnread_cons (n : Notification) (xs : List Notification) :
    countUnread (n :: xs) = (if n.is_read then 0 else 1) + countUnread xs := by
  unfold countUnread
  by_cases h : n.is_read = true
  · simp [h]
  · simp [h]
    omega

/-- Marking the found unread notification lowers the number of unread ones by one. -/
theorem countUnread_mutateFound (id : Nat) (xs : List Notification) (n : Notification)
    (hf : find (fun m => decide (m.id = id)) xs = some n) (hr : n.is_read = false) :
    countUnread (mutateFound (fun m => decide (m.id = id)) (fun m => { m with is_read := true }) xs)
      = countUnread xs - 1 := by
  induction xs with
  | nil => simp [find] at hf
  | cons x xs ih =>
    by_cases hx : x.id = id
    · simp only [find, hx, decide_True, if_true, Option.some.injEq] at hf
      subst hf
      simp only [mutateFound, hx, decide_True, if_true, countUnread_cons, hr]
      simp
    · simp only [find, hx, decide_False, Bool.false_eq_true, if_false] at hf
      simp only [mutateFound, hx, decide_False, Bool.false_eq_true, if_false, countUnread_cons,
        ih hf]
      omega

theorem countUnread_pos_of_find (id : Nat) (xs : List Notification) (n : Notification)
    (hf : find (fun m => decide (m.id = id)) xs = some n) (hr : n.is_read = false) :
    1 ≤ countUnread xs := by
  induction xs with
  | nil => simp [find] at hf
  | cons x xs ih =>
    by_cases hx : x.id = id
    · simp only [find, hx, decide_True, if_true, Option.some.injEq] at hf
      subst hf
      rw [countUnread_cons]
      have := countUnread_nonneg xs
      simp [hr]
      omega
    · simp only [find, hx, decide_False, Bool.false_eq_true, if_false] at hf
      rw [countUnread_cons]
      have := ih hf
      split <;> omega

theorem find_eq_none_iff {α : Type} (p : α → Bool) (xs : List α) :
    find p xs = none ↔ ∀ x ∈ xs, p x = false := by
  induction xs with
  | nil => simp [find]
  | cons x xs ih =>
    by_cases h : p x = true
    · simp [find, h]
    · simp [find, h, ih]

theorem find_some_mem {α : Type} (p : α → Bool) (xs : List α) (x : α)
    (h : find p xs = some x) : x ∈ xs ∧ p x = true := by
  induction xs with
  | nil => simp [find] at h
  | cons y ys ih =>
    by_cases hy : p y = true
    · simp only [find, hy, if_true, Option.some.injEq] at h
      subst h
      exact ⟨List.mem_cons_self _ _, hy⟩
    · simp only [find, hy, Bool.false_eq_true, if_false] at h
      exact ⟨List.mem_cons_of_mem _ (ih h).1, (ih h).2⟩

theorem filter_ne_of_absent (id : Nat) (xs : List Notification)
    (h : ∀ n ∈ xs, n.id ≠ id) : xs.filter (fun n => decide (n.id ≠ id)) = xs := by
  rw [List.filter_eq_self]
  intro n hn
  simpa using h n hn

/-- With distinct ids, deleting by id removes exactly the found notification. -/
theorem countUnread_filter_ne (id : Nat) (xs : List Notification)
    (hnd : (xs.map (fun n => n.id)).Nodup) :
    countUnread (xs.filter (fun n => decide (n.id ≠ id))) =
      countUnread xs -
        (match find (fun m => decide (m.id = id)) xs with
         | some n => if n.is_read then 0 else 1
         | none => 0) := by
  induction xs with
  | nil => simp [find, countUnread]
  | cons x xs ih =>
    simp only [List.map_cons, List.nodup_cons, List.mem_map, not_exists, not_and] at hnd
    by_cases hx : x.id = id
    · have habs : ∀ n ∈ xs, n.id ≠ id := by
        intro n hn e
        exact hnd.1 n hn (by rw [e, hx])
      have hfilt : (x :: xs).filter (fun n => decide (n.id ≠ id)) = xs := by
        rw [List.filter_cons]
        simp only [hx, ne_eq, not_true_eq_false, decide_False, Bool.false_eq_true, if_false]
        exact filter_ne_of_absent id xs habs
      rw [hfilt]
      simp only [find, hx, decide_True, if_true, countUnread_cons]
      split <;> omega
    · have hfilt : (x :: xs).filter (fun n => decide (n.id ≠ id)) =
          x :: xs.filter (fun n => decide (n.id ≠ id)) := by
        rw [List.filter_cons]
        simp [hx]
      rw [hfilt]
      simp only [find, hx, decide_False, Bool.false_eq_true, if_false, countUnread_cons,
        ih hnd.2]
      omega

theorem countUnread_map_read (xs : List Notification) :
    countUnread (xs.map (fun n => { n with is_read := true })) = 0 := by
  induction xs with
  | nil => rfl
  | cons x xs ih =>
    rw [List.map_cons, countUnread_cons, ih]
    simp

theorem map_id_mutateFound (id : Nat) (xs : List Notification) :
    (mutateFound (fun m => decide (m.id = id)) (fun m => { m with is_read := true }) xs).map
        (fun n => n.id) = xs.map (fun n => n.id) := by
  induction xs with
  | nil => rfl
  | cons x xs ih =>
    by_cases hx : x.id = id
    · simp [mutateFound, hx]
    · simp [mutateFound, hx, ih]

theorem markAsRead_state_absent (s : NotificationsState) (id : Nat)
    (hf : find (fun n => decide (n.id = id)) s.notifications = none) :
    (markAsRead s id (.ok ())).state = s := by
  simp [markAsRead, hf]

theorem markAsRead_state_read (s : NotificationsState) (id : Nat) (n : Notification)
    (hf : find (fun n => decide (n.id = id)) s.notifications = some n)
    (hr : n.is_read = true) : (markAsRead s id (.ok ())).state = s := by
  simp [markAsRead, hf, hr]

theorem markAsRead_state_unread (s : NotificationsState) (id : Nat) (n : Notification)
    (hf : find (fun n => decide (n.id = id)) s.notifications = some n)
    (hr : n.is_read = false) :
    (markAsRead s id (.ok ())).state =
      { s with
        notifications :=
          mutateFound (fun n => decide (n.id = id)) (fun n => { n with is_read := true })
            s.notifications
        unreadCount := max 0 (s.unreadCount - 1) } := by
  simp [markAsRead, hf, hr]

theorem deleteNotification_state (s : NotificationsState) (id : Nat) :
    (deleteNotification s id (.ok ())).state =
      { s with
        unreadCount :=
          (match find (fun n => decide (n.id = id)) s.notifications with
           | some n => if n.is_read then s.unreadCount else max 0 (s.unreadCount - 1)
           | none => s.unreadCount)
        notifications := s.notifications.filter (fun n => decide (n.id ≠ id)) } := by
  simp only [deleteNotification]
  cases find (fun n => decide (n.id = id)) s.notifications with
  | none => rfl
  | some n =>
    by_cases hr : n.is_read = true
    · simp [hr]
    · simp [hr]

/-- C4: if the cached notifications have pairwise distinct ids and `unreadCount` equals the
number of cached notifications with `is_read == false`, then after a successful
`markAsRead(id)`, `deleteNotification(id)`, `markAllAsRead()` or `clearAll()` the ids are still
distinct and `unreadCount` again equals the number of cached unread notifications; and
`markAsRead` and `deleteNotification` lower the counter by exactly 1 when a cached
notification with that id was unread, and leave it unchanged otherwise. -/
theorem unread_counter_stays_exact (s : NotificationsState)
    (hd : (s.notifications.map (fun n => n.id)).Nodup)
    (hc : s.unreadCount = countUnread s.notifications) :
    (∀ id : Nat,
      ((markAsRead s id (.ok ())).state.notifications.map (fun n => n.id)).Nodup ∧
        (markAsRead s id (.ok ())).state.unreadCount =
          countUnread (markAsRead s id (.ok ())).state.notifications ∧
        ((∃ n ∈ s.notifications, n.id = id ∧ n.is_read = false) →
          (markAsRead s id (.ok ())).state.unreadCount = s.unreadCount - 1) ∧
        ((¬ ∃ n ∈ s.notifications, n.id = id ∧ n.is_read = false) →
          (markAsRead s id (.ok ())).state.unreadCount = s.unreadCount)) ∧
      (∀ id : Nat,
        ((deleteNotification s id (.ok ())).state.notifications.map (fun n => n.id)).Nodup ∧
          (deleteNotification s id (.ok ())).state.unreadCount =
            countUnread (deleteNotification s id (.ok ())).state.notifications ∧
          ((∃ n ∈ s.notifications, n.id = id ∧ n.is_read = false) →
            (deleteNotification s id (.ok ())).state.unreadCount = s.unreadCount - 1) ∧
          ((¬ ∃ n ∈ s.notifications, n.id = id ∧ n.is_read = false) →
            (deleteNotification s id (.ok ())).state.unreadCount = s.unreadCount)) ∧
      (((markAllAsRead s (.ok ())).state.notifications.map (fun n => n.id)).Nodup ∧
        (markAllAsRead s (.ok ())).state.unreadCount =
          countUnread (markAllAsRead s (.ok ())).state.notifications) ∧
      (((clearAll s (.ok ())).state.notifications.map (fun n => n.id)).Nodup ∧
        (clearAll s (.ok ())).state.unreadCount =
          countUnread (clearAll s (.ok ())).state.notifications) := by
  -- the found notification decides whether a cached notification with the id is unread
  have hfound : ∀ (id : Nat) (n : Notification),
      find (fun n => decide (n.id = id)) s.notifications = some n →
      ((∃ m ∈ s.notifications, m.id = id ∧ m.is_read = false) ↔ n.is_read = false) := by
    intro id n hf
    constructor
    · rintro ⟨m, hm, hid, hr⟩
      have : find (fun n => decide (n.id = id)) s.notifications = some m :=
        find_key_of_mem_nodup (fun n : Notification => n.id) id s.notifications hd m hm hid
      rw [hf] at this
      cases this
      exact hr
    · intro hr
      have hmem := find_some_mem _ _ _ hf
      exact ⟨n, hmem.1, by simpa using hmem.2, hr⟩
  have habsent : ∀ id : Nat, find (fun n => decide (n.id = id)) s.notifications = none →
      ¬ ∃ m ∈ s.notifications, m.id = id ∧ m.is_read = false := by
    rintro id hf ⟨m, hm, hid, _⟩
    have := (find_eq_none_iff _ _).mp hf m hm
    simp [hid] at this
  refine ⟨?_, ?_, ?_, ?_⟩
  · intro id
    cases hf : find (fun n => decide (n.id = id)) s.notifications with
    | none =>
      rw [markAsRead_state_absent s id hf]
      exact ⟨hd, hc, fun h => absurd h (habsent id hf), fun _ => rfl⟩
    | some n =>
      by_cases hr : n.is_read = true
      · rw [markAsRead_state_read s id n hf hr]
        refine ⟨hd, hc, ?_, fun _ => rfl⟩
        intro h
        have := (hfound id n hf).mp h
        rw [hr] at this
        cases this
      · have hr0 : n.is_read = false := by simpa using hr
        rw [markAsRead_state_unread s id n hf hr0]
        have hpos := countUnread_pos_of_find id s.notifications n hf hr0
        have hmax : max 0 (s.unreadCount - 1) = s.unreadCount - 1 := by
          rw [hc]
          exact max_eq_right (by omega)
        refine ⟨?_, ?_, fun _ => hmax, ?_⟩
        · show (List.map (fun n => n.id) (mutateFound _ _ s.notifications)).Nodup
          rw [map_id_mutateFound]
          exact hd
        · show max 0 (s.unreadCount - 1) = countUnread (mutateFound _ _ s.notifications)
          rw [countUnread_mutateFound id s.notifications n hf hr0, hmax, hc]
        · intro h
          exact absurd ((hfound id n hf).mpr hr0) h
  · intro id
    rw [deleteNotification_state]
    have hcount := countUnread_filter_ne id s.notifications hd
    have hnd : (List.map (fun n => n.id)
        (s.notifications.filter (fun n => decide (n.id ≠ id)))).Nodup :=
      List.Nodup.sublist (List.Sublist.map _ (List.filter_sublist _)) hd
    cases hf : find (fun n => decide (n.id = id)) s.notifications with
    | none =>
      rw [hf] at hcount
      refine ⟨hnd, ?_, fun h => absurd h (habsent id hf), fun _ => rfl⟩
      show s.unreadCount = countUnread (s.notifications.filter _)
      rw [hcount, hc]
      simp
    | some n =>
      rw [hf] at hcount
      by_cases hr : n.is_read = true
      · refine ⟨hnd, ?_, ?_, ?_⟩
        · show (if n.is_read = true then s.unreadCount else max 0 (s.unreadCount - 1)) =
            countUnread (s.notifications.filter _)
          rw [hcount, hc]
          simp [hr]
        · intro h
          have := (hfound id n hf).mp h
          rw [hr] at this
          cases this
        · intro _
          show (if n.is_read = true then s.unreadCount else max 0 (s.unreadCount - 1)) = _
          simp [hr]
      · have hr0 : n.is_read = false := by simpa using hr
        have hpos := countUnread_pos_of_find id s.notifications n hf hr0
        have hmax : max 0 (s.unreadCount - 1) = s.unreadCount - 1 := by
          rw [hc]
          exact max_eq_right (by omega)
        refine ⟨hnd, ?_, ?_, ?_⟩
        · show (if n.is_read = true then s.unreadCount else max 0 (s.unreadCount - 1)) =
            countUnread (s.notifications.filter _)
          rw [hcount, hc]
          simp only [hr0, Bool.false_eq_true, if_false]
          rw [← hc]
          exact hmax
        · intro _
          show (if n.is_read = true then s.unreadCount else max 0 (s.unreadCount - 1)) = _
          simp only [hr0, Bool.false_eq_true, if_false]
          exact hmax
        · intro h
          exact absurd ((hfound id n hf).mpr hr0) h
  · refine ⟨?_, ?_⟩
    · show (List.map (fun n => n.id)
        (s.notifications.map (fun n => { n with is_read := true }))).Nodup
      rw [List.map_map]
      exact hd
    · show (0 : Int) = countUnread (s.notifications.map (fun n => { n with is_read := true }))
      rw [countUnread_map_read]
  · exact ⟨List.nodup_nil, rfl⟩

/-- C4 at the inbox of three unread notifications (ids 7, 8, 9, counter 3): `markAsRead(7)`
and `deleteNotification(8)` each leave the counter at 2, the number of unread notifications
still cached; `deleteNotification(12)`, an id that is not cached, leaves it at 3. -/
theorem unread_counter_witness :
    (inboxOfThree.notifications.map (fun n => n.id)).Nodup ∧
      inboxOfThree.unreadCount = countUnread inboxOfThree.notifications ∧
      (markAsRead inboxOfThree 7 (.ok ())).state.unreadCount = 3 - 1 ∧
      (deleteNotification inboxOfThree 8 (.ok ())).state.unreadCount = 3 - 1 ∧
      (deleteNotification inboxOfThree 8 (.ok ())).state.unreadCount =
        countUnread (deleteNotification inboxOfThree 8 (.ok ())).state.notifications ∧
      (deleteNotification inboxOfThree 12 (.ok ())).state.unreadCount = 3 :=
  have h := unread_counter_stays_exact inboxOfThree (by decide) (by decide)
  ⟨by decide, by decide,
    ((h.1 7).2.2.1 ⟨_, List.mem_cons_self _ _, rfl, rfl⟩),
    ((h.2.1 8).2.2.1 ⟨_, List.mem_cons_of_mem _ (List.mem_cons_self _ _), rfl, rfl⟩),
    (h.2.1 8).2.1,
    ((h.2.1 12).2.2.2 (by decide))⟩

theorem find_append_first {α : Type} (p : α → Bool) (pre post : List α) (x : α)
    (hpre : ∀ y ∈ pre, p y = false) (hx : p x = true) :
    find p (pre ++ x :: post) = some x := by
  induction pre with
  | nil => simp [find, hx]
  | cons y ys ih =>
    have hy : p y = false := hpre y (List.mem_cons_self _ _)
    simp only [List.cons_append, find, hy, Bool.false_eq_true, if_false]
    exact ih (fun z hz => hpre z (List.mem_cons_of_mem _ hz))

theorem mutateFound_append_first {α : Type} (p : α → Bool) (f : α → α) (pre post : List α)
    (x : α) (hpre : ∀ y ∈ pre, p y = false) (hx : p x = true) :
    mutateFound p f (pre ++ x :: post) = pre ++ f x :: post := by
  induction pre with
  | nil => simp [mutateFound, hx]
  | cons y ys ih =>
    have hy : p y = false := hpre y (List.mem_cons_self _ _)
    have ih1 := ih (fun z hz => hpre z (List.mem_cons_of_mem _ hz))
    simp only [List.cons_append, mutateFound, hy, Bool.false_eq_true, if_false]
    exact congrArg (List.cons y) ih1

theorem find_mutateFound {α : Type} (p : α → Bool) (f : α → α) (hp : ∀ x, p (f x) = p x)
    (xs : List α) : find p (mutateFound p f xs) = (find p xs).map f := by
  induction xs with
  | nil => rfl
  | cons x xs ih =>
    by_cases h : p x = true
    · simp [find, mutateFound, h, hp]
    · simp [find, mutateFound, h, ih]

/-- C5 fails as stated: after the unread count was polled (3) and with no notification
cached, no cached notification with id 7 is already read, yet a successful `markAsRead(7)`
leaves `unreadCount` at 3 instead of setting it to `max(0, 3 - 1)`. -/
theorem markAsRead_uncached_keeps_counter :
    (∀ n ∈ badgeOnly.notifications, ¬ (n.id = 7 ∧ n.is_read = true)) ∧
      (markAsRead badgeOnly 7 (.ok ())).result = .ok () ∧
      (markAsRead badgeOnly 7 (.ok ())).state.unreadCount = 3 ∧
      (markAsRead badgeOnly 7 (.ok ())).state.unreadCount ≠
        max 0 (badgeOnly.unreadCount - 1) :=
  ⟨fun n hn => absurd hn (List.not_mem_nil n), rfl, rfl, by decide⟩

/-- C5, amended: `markAsRead(id)` is idempotent.  Writing the cache as `pre ++ n :: post` with
`n` the first cached notification with that id: when `n` is already read a successful
`markAsRead(id)` leaves the whole state, so `unreadCount` and every `is_read` flag, unchanged;
when `n` is unread it sets `is_read` of `n` to true, leaves every other notification as it
was, and sets `unreadCount` to `max(0, unreadCount - 1)`; when no cached notification has the
id the state is unchanged; and in every state two successful `markAsRead(id)` in a row leave
the same state as one. -/
theorem markAsRead_idempotent (s : NotificationsState) (id : Nat) :
    (∀ (pre post : List Notification) (n : Notification),
        s.notifications = pre ++ n :: post → (∀ m ∈ pre, m.id ≠ id) → n.id = id →
        n.is_read = true → (markAsRead s id (.ok ())).state = s) ∧
      (∀ (pre post : List Notification) (n : Notification),
        s.notifications = pre ++ n :: post → (∀ m ∈ pre, m.id ≠ id) → n.id = id →
        n.is_read = false →
        (markAsRead s id (.ok ())).state =
          { s with notifications := pre ++ { n with is_read := true } :: post,
                   unreadCount := max 0 (s.unreadCount - 1) }) ∧
      ((∀ m ∈ s.notifications, m.id ≠ id) → (markAsRead s id (.ok ())).state = s) ∧
      (markAsRead (markAsRead s id (.ok ())).state id (.ok ())).state =
        (markAsRead s id (.ok ())).state ∧
      (markAsRead s id (.ok ())).result = .ok () := by
  refine ⟨?_, ?_, ?_, ?_, rfl⟩
  · intro pre post n hs hpre hid hr
    have hf : find (fun n => decide (n.id = id)) s.notifications = some n := by
      rw [hs]
      exact find_append_first _ pre post n (fun m hm => by simpa using hpre m hm)
        (by simpa using hid)
    exact markAsRead_state_read s id n hf hr
  · intro pre post n hs hpre hid hr
    have hf : find (fun n => decide (n.id = id)) s.notifications = some n := by
      rw [hs]
      exact find_append_first _ pre post n (fun m hm => by simpa using hpre m hm)
        (by simpa using hid)
    rw [markAsRead_state_unread s id n hf hr, hs,
      mutateFound_append_first _ _ pre post n (fun m hm => by simpa using hpre m hm)
        (by simpa using hid)]
  · intro habs
    apply markAsRead_state_absent
    rw [find_eq_none_iff]
    intro m hm
    simpa using habs m hm
  · cases hf : find (fun n => decide (n.id = id)) s.notifications with
    | none =>
      rw [markAsRead_state_absent s id hf, markAsRead_state_absent s id hf]
    | some n =>
      by_cases hr : n.is_read = true
      · rw [markAsRead_state_read s id n hf hr, markAsRead_state_read s id n hf hr]
      · have hr0 : n.is_read = false := by simpa using hr
        rw [markAsRead_state_unread s id n hf hr0]
        apply markAsRead_state_read _ id { n with is_read := true }
        · show find _ (mutateFound _ _ s.notifications) = _
          rw [find_mutateFound (fun n : Notification => decide (n.id = id))
            (fun n => { n with is_read := true }) (fun _ => rfl), hf]
          rfl
        · rfl

/-- C5 amended, at the inbox of three: `markAsRead(7)` flips notification 7 and lowers the counter to
2, and a second `markAsRead(7)` changes nothing. -/
theorem markAsRead_witness :
    (markAsRead inboxOfThree 7 (.ok ())).state.unreadCount = 2 ∧
      ((markAsRead inboxOfThree 7 (.ok ())).state.notifications.map (fun n => n.is_read)) =
        [true, false, false] ∧
      (markAsRead (markAsRead inboxOfThree 7 (.ok ())).state 7 (.ok ())).state =
        (markAsRead inboxOfThree 7 (.ok ())).state :=
  have h := markAsRead_idempotent inboxOfThree 7
  have h2 := h.2.1 [] _ _ rfl (fun m hm => absurd hm (List.not_mem_nil m)) rfl rfl
  ⟨by rw [h2]; decide, by rw [h2]; decide, h.2.2.2.1⟩

/-! ## Complaints store: lookup tables and failures -/

/-- C9 fails as stated: with an empty categories cache and a first call that succeeds with an
empty list, the cache is still empty, so the second `loadCategories()` issues a second request
and returns what that request answers, not the list cached by the first. -/
theorem loadCategories_empty_reply_refetches :
    ComplaintsState.init.categories = [] ∧
      (loadCategories ComplaintsState.init (.ok [])).requests = [complaintsAPI_getCategories] ∧
      (loadCategories (loadCategories ComplaintsState.init (.ok [])).state
          (.ok [.str "Noise"])).requests = [complaintsAPI_getCategories] ∧
      (loadCategories (loadCategories ComplaintsState.init (.ok [])).state
          (.ok [.str "Noise"])).result ≠
        (loadCategories ComplaintsState.init (.ok [])).result :=
  ⟨rfl, rfl, rfl, by decide⟩

/-- C9, amended: for every state with an empty categories cache and every successful
categories reply with a non-empty list, `loadCategories()` called twice in succession issues
exactly one request: the first call issues it and caches and returns the list, the second
call issues none, however its request would have settled, and returns the list cached by the
first. -/
theorem loadCategories_twice_one_request (s : ComplaintsState) (data : List JSVal)
    (second : Except ApiError (List JSVal)) (hs : s.categories = []) (hd : data ≠ []) :
    (loadCategories s (.ok data)).requests = [complaintsAPI_getCategories] ∧
      (loadCategories s (.ok data)).result = data ∧
      (loadCategories s (.ok data)).state.categories = data ∧
      (loadCategories (loadCategories s (.ok data)).state second).requests = [] ∧
      (loadCategories (loadCategories s (.ok data)).state second).result = data ∧
      ((loadCategories s (.ok data)).requests ++
        (loadCategories (loadCategories s (.ok data)).state second).requests).length = 1 := by
  have h1 : loadCategories s (.ok data) =
      { state := { s with categories := data }, result := data,
        requests := [complaintsAPI_getCategories] } := by
    simp [loadCategories, hs]
  have hlen : ¬ data.length = 0 := by
    intro h
    exact hd (List.length_eq_zero.mp h)
  have h2 : loadCategories { s with categories := data } second =
      { state := { s with categories := data }, result := data, requests := [] } := by
    simp [loadCategories, hlen]
  rw [h1, h2]
  exact ⟨rfl, rfl, rfl, rfl, rfl, rfl⟩

/-- C9 amended, at the fresh store and a reply of two categories; the second call would have
failed had it asked. -/
theorem loadCategories_witness :
    (loadCategories ComplaintsState.init (.ok [.str "Noise", .str "Parking"])).requests =
        [complaintsAPI_getCategories] ∧
      (loadCategories
          (loadCategories ComplaintsState.init (.ok [.str "Noise", .str "Parking"])).state
          (.error ⟨none⟩)).requests = [] ∧
      (loadCategories
          (loadCategories ComplaintsState.init (.ok [.str "Noise", .str "Parking"])).state
          (.error ⟨none⟩)).result = [.str "Noise", .str "Parking"] :=
  have h := loadCategories_twice_one_request ComplaintsState.init
    [.str "Noise", .str "Parking"] (.error ⟨none⟩) rfl (by decide)
  ⟨h.1, h.2.2.2.1, h.2.2.2.2.1⟩

/-- C10: for every state and every rejection of the backend request, `vote`, `removeVote`,
`addComment`, `deleteComment` and `updateStatus` leave the list cache and the current
complaint exactly as they were before the call, issue exactly one request (no retry), and
return `success: false` with the error message instead of throwing. -/
theorem failed_mutation_leaves_caches (s : ComplaintsState) (err : ApiError) :
    (∀ (id : Nat) (voteType : String) (isAnonymous : Bool),
        (vote s id voteType isAnonymous (.error err)).state.complaints = s.complaints ∧
          (vote s id voteType isAnonymous (.error err)).state.currentComplaint =
            s.currentComplaint ∧
          (vote s id voteType isAnonymous (.error err)).requests =
            [votesAPI_vote id voteType isAnonymous] ∧
          (vote s id voteType isAnonymous (.error err)).result =
            .fail (errorMessage err "Failed to vote")) ∧
      (∀ id : Nat,
        (removeVote s id (.error err)).state.complaints = s.complaints ∧
          (removeVote s id (.error err)).state.currentComplaint = s.currentComplaint ∧
          (removeVote s id (.error err)).requests = [votesAPI_removeVote id] ∧
          (removeVote s id (.error err)).result =
            .fail (errorMessage err "Failed to remove vote")) ∧
      (∀ (id : Nat) (text : String) (isAnonymous : Bool),
        (addComment s id text isAnonymous (.error err)).state.complaints = s.complaints ∧
          (addComment s id text isAnonymous (.error err)).state.currentComplaint =
            s.currentComplaint ∧
          (addComment s id text isAnonymous (.error err)).requests =
            [commentsAPI_add id text isAnonymous] ∧
          (addComment s id text isAnonymous (.error err)).result =
            .fail (errorMessage err "Failed to add comment")) ∧
      (∀ commentId : Nat,
        (deleteComment s commentId (.error err)).state.complaints = s.complaints ∧
          (deleteComment s commentId (.error err)).state.currentComplaint =
            s.currentComplaint ∧
          (deleteComment s commentId (.error err)).requests = [commentsAPI_delete commentId] ∧
          (deleteComment s commentId (.error err)).result =
            .fail (errorMessage err "Failed to delete comment")) ∧
      (∀ (id : Nat) (status : String) (note : Option String),
        (updateStatus s id status note (.error err)).state.complaints = s.complaints ∧
          (updateStatus s id status note (.error err)).state.currentComplaint =
            s.currentComplaint ∧
          (updateStatus s id status note (.error err)).requests =
            [complaintsAPI_updateStatus id (statusData status note)] ∧
          (updateStatus s id status note (.error err)).result =
            .fail (errorMessage err "Failed to update status")) :=
  ⟨fun _ _ _ => ⟨rfl, rfl, rfl, rfl⟩, fun _ => ⟨rfl, rfl, rfl, rfl⟩,
    fun _ _ _ => ⟨rfl, rfl, rfl, rfl⟩, fun _ => ⟨rfl, rfl, rfl, rfl⟩,
    fun _ _ _ => ⟨rfl, rfl, rfl, rfl⟩⟩

/-- C10 at a rejected `vote(1, 'support')` while viewing complaint 1, the server answering 500
with the message `'Database unavailable'`: both caches keep complaint 1 as it was and the
action returns that message. -/
theorem failed_vote_witness :
    (vote viewingOne 1 "support" true
        (.error ⟨some ⟨500, some "Database unavailable"⟩⟩)).state.complaints =
        [complaintOne, complaintTwo] ∧
      (vote viewingOne 1 "support" true
        (.error ⟨some ⟨500, some "Database unavailable"⟩⟩)).state.currentComplaint =
        some complaintOne ∧
      (vote viewingOne 1 "support" true
        (.error ⟨some ⟨500, some "Database unavailable"⟩⟩)).result =
        .fail "Database unavailable" :=
  have h := (failed_mutation_leaves_caches viewingOne
    ⟨some ⟨500, some "Database unavailable"⟩⟩).1 1 "support" true
  ⟨h.1, h.2.1, h.2.2.2.trans (by decide)⟩

/-! ## Complaints store: error policy and entity replacement -/

/-- C11 fails as stated: while viewing complaint 1 with no error recorded, a `vote` rejected
with the payload message `'Already voted'` returns `success: false` with that message but
leaves the store's `error` field at `null`. -/
theorem failed_vote_leaves_error_field :
    viewingOne.error = none ∧
      (vote viewingOne 1 "support" true (.error ⟨some ⟨400, some "Already voted"⟩⟩)).result =
        .fail "Already voted" ∧
      (vote viewingOne 1 "support" true (.error ⟨some ⟨400, some "Already voted"⟩⟩)).state.error =
        none ∧
      (vote viewingOne 1 "support" true (.error ⟨some ⟨400, some "Already voted"⟩⟩)).state.error ≠
        some "Already voted" :=
  ⟨rfl, by decide, rfl, by decide⟩

/-- C11, amended: when the request fails, `fetchComplaints`, `fetchComplaint`,
`createComplaint`, `updateComplaint`, `updateStatus` and `deleteComplaint` set the store's
`error` field to the message and return `success: false` with that same message; `vote`,
`removeVote`, `addComment` and `deleteComment` return `success: false` with the message and
leave the `error` field as it was.  The message is the payload's `error` when the rejection
has a response with a non-empty one, and the action's generic fallback otherwise. -/
theorem failure_sets_or_returns_message (s : ComplaintsState) (err : ApiError) :
    (∀ params : JSObj,
        (fetchComplaints s params (.error err)).state.error =
            some (errorMessage err "Failed to fetch complaints") ∧
          (fetchComplaints s params (.error err)).result =
            .fail (errorMessage err "Failed to fetch complaints")) ∧
      (∀ id : Nat,
        (fetchComplaint s id (.error err)).state.error =
            some (errorMessage err "Failed to fetch complaint") ∧
          (fetchComplaint s id (.error err)).result =
            .fail (errorMessage err "Failed to fetch complaint")) ∧
      (∀ data : JSObj,
        (createComplaint s data (.error err)).state.error =
            some (errorMessage err "Failed to create complaint") ∧
          (createComplaint s data (.error err)).result =
            .fail (errorMessage err "Failed to create complaint")) ∧
      (∀ (id : Nat) (data : JSObj),
        (updateComplaint s id data (.error err)).state.error =
            some (errorMessage err "Failed to update complaint") ∧
          (updateComplaint s id data (.error err)).result =
            .fail (errorMessage err "Failed to update complaint")) ∧
      (∀ (id : Nat) (status : String) (note : Option String),
        (updateStatus s id status note (.error err)).state.error =
            some (errorMessage err "Failed to update status") ∧
          (updateStatus s id status note (.error err)).result =
            .fail (errorMessage err "Failed to update status")) ∧
      (∀ id : Nat,
        (deleteComplaint s id (.error err)).state.error =
            some (errorMessage err "Failed to delete complaint") ∧
          (deleteComplaint s id (.error err)).result =
            .fail (errorMessage err "Failed to delete complaint")) ∧
      (∀ (id : Nat) (voteType : String) (isAnonymous : Bool),
        (vote s id voteType isAnonymous (.error err)).state.error = s.error ∧
          (vote s id voteType isAnonymous (.error err)).result =
            .fail (errorMessage err "Failed to vote")) ∧
      (∀ id : Nat,
        (removeVote s id (.error err)).state.error = s.error ∧
          (removeVote s id (.error err)).result =
            .fail (errorMessage err "Failed to remove vote")) ∧
      (∀ (id : Nat) (text : String) (isAnonymous : Bool),
        (addComment s id text isAnonymous (.error err)).state.error = s.error ∧
          (addComment s id text isAnonymous (.error err)).result =
            .fail (errorMessage err "Failed to add comment")) ∧
      (∀ commentId : Nat,
        (deleteComment s commentId (.error err)).state.error = s.error ∧
          (deleteComment s commentId (.error err)).result =
            .fail (errorMessage err "Failed to delete comment")) ∧
      (∀ (status : Nat) (m fallback : String), err.response = some ⟨status, some m⟩ → m ≠ "" →
        errorMessage err fallback = m) ∧
      (∀ fallback : String,
        (err.response = none ∨ ∃ status : Nat,
          err.response = some ⟨status, none⟩ ∨ err.response = some ⟨status, some ""⟩) →
        errorMessage err fallback = fallback) := by
  refine ⟨fun _ => ⟨rfl, rfl⟩, fun _ => ⟨rfl, rfl⟩, fun _ => ⟨rfl, rfl⟩, fun _ _ => ⟨rfl, rfl⟩,
    fun _ _ _ => ⟨rfl, rfl⟩, fun _ => ⟨rfl, rfl⟩, fun _ _ _ => ⟨rfl, rfl⟩, fun _ => ⟨rfl, rfl⟩,
    fun _ _ _ => ⟨rfl, rfl⟩, fun _ => ⟨rfl, rfl⟩, ?_, ?_⟩
  · intro status m fallback h hm
    simp [errorMessage, h, hm]
  · intro fallback h
    rcases h with h | ⟨status, h | h⟩ <;> simp [errorMessage, h]

/-- C11 amended, at a list fetch and a vote both rejected with status 403 and the payload
message `'Forbidden'`, and a delete that fails without a response. -/
theorem failure_message_witness :
    (fetchComplaints viewingOne [] (.error ⟨some ⟨403, some "Forbidden"⟩⟩)).state.error =
        some "Forbidden" ∧
      (fetchComplaints viewingOne [] (.error ⟨some ⟨403, some "Forbidden"⟩⟩)).result =
        .fail "Forbidden" ∧
      (vote viewingOne 1 "oppose" true (.error ⟨some ⟨403, some "Forbidden"⟩⟩)).state.error =
        none ∧
      (deleteComplaint viewingOne 1 (.error ⟨none⟩)).state.error =
        some "Failed to delete complaint" :=
  have h := failure_sets_or_returns_message viewingOne ⟨some ⟨403, some "Forbidden"⟩⟩
  have hm := h.2.2.2.2.2.2.2.2.2.2.1 403 "Forbidden" "Failed to fetch complaints" rfl
    (by decide)
  have g := failure_sets_or_returns_message viewingOne ⟨none⟩
  ⟨(h.1 []).1.trans (congrArg some hm), (h.1 []).2.trans (congrArg OpResult.fail hm),
    (h.2.2.2.2.2.2.1 1 "oppose" true).1,
    (g.2.2.2.2.2.1 1).1.trans
      (congrArg some (g.2.2.2.2.2.2.2.2.2.2.2 "Failed to delete complaint" (Or.inl rfl)))⟩

/-- Position by position, the array after the entry at `findIndex(p)` was mutated. -/
theorem getElem?_mutate_first {α : Type} (p : α → Bool) (f : α → α) (xs : List α) (i : Nat) :
    (match findIndex p xs with
      | some k => mutateAt f xs k
      | none => xs)[i]? =
      if findIndex p xs = some i then xs[i]?.map f else xs[i]? := by
  cases h : findIndex p xs with
  | none => simp
  | some k =>
    simp only [getElem?_mutateAt, Option.some.injEq]
    by_cases hik : i = k
    · simp [hik]
    · have : ¬ k = i := fun e => hik e.symm
      simp [hik, this]

/-- Both update actions replace by id: the shared shape of their two cache updates. -/
theorem replacedById_of_update (id : Nat) (e : Complaint) (s t : ComplaintsState)
    (hl : t.complaints =
      match findIndex (fun c => decide (c.id = id)) s.complaints with
      | some index => assignAt e s.complaints index
      | none => s.complaints)
    (hc : t.currentComplaint =
      match s.currentComplaint with
      | some c => if c.id = id then some e else some c
      | none => none) : ReplacedById id e s t := by
  have hpos : ∀ i : Nat, t.complaints[i]? =
      if findIndex (fun c => decide (c.id = id)) s.complaints = some i
      then s.complaints[i]?.map (fun _ => e) else s.complaints[i]? := by
    intro i
    rw [hl]
    exact getElem?_mutate_first _ _ _ i
  have hfirst : ∀ (i : Nat) (c : Complaint), s.complaints[i]? = some c → c.id = id →
      (∀ (j : Nat) (d : Complaint), j < i → s.complaints[j]? = some d → d.id ≠ id) →
      t.complaints[i]? = some e := by
    intro i c hc1 hid hfst
    have hfi : findIndex (fun c => decide (c.id = id)) s.complaints = some i := by
      rw [findIndex_eq_some]
      refine ⟨⟨c, hc1, by simpa using hid⟩, ?_⟩
      intro j d hj hd
      simpa using hfst j d hj hd
    rw [hpos, if_pos hfi, hc1]
    rfl
  have hother : ∀ (i : Nat) (c : Complaint), s.complaints[i]? = some c →
      (c.id ≠ id ∨
        ∃ (j : Nat) (d : Complaint), j < i ∧ s.complaints[j]? = some d ∧ d.id = id) →
      t.complaints[i]? = some c := by
    intro i c hc1 hcase
    have hfi : ¬ findIndex (fun c => decide (c.id = id)) s.complaints = some i := by
      rw [findIndex_eq_some]
      rintro ⟨⟨x, hx, hpx⟩, hlt⟩
      rw [hc1] at hx
      cases hx
      rcases hcase with hne | ⟨j, d, hj, hd, hdid⟩
      · exact hne (by simpa using hpx)
      · have := hlt j d hj hd
        simp [hdid] at this
    rw [hpos, if_neg hfi, hc1]
  refine ⟨?_, hfirst, hother, ?_, ?_, ?_, ?_, ?_⟩
  · rw [hl]
    cases findIndex (fun c => decide (c.id = id)) s.complaints with
    | none => rfl
    | some k => exact length_mutateAt _ _ _
  · intro hnd i c hc1
    by_cases hid : c.id = id
    · rw [if_pos hid]
      refine hfirst i c hc1 hid ?_
      intro j d hj hd
      rw [← hid]
      exact nodup_ids_first hnd hj hc1 hd
    · rw [if_neg hid]
      exact hother i c hc1 (Or.inl hid)
  · intro hno
    apply List.ext_getElem?
    intro i
    cases hc1 : s.complaints[i]? with
    | none =>
      rw [hpos, hc1]
      simp
    | some c => exact hother i c hc1 (Or.inl (hno c (List.getElem?_mem hc1)))
  · intro c hc1 hid
    rw [hc, hc1]
    simp [hid]
  · intro c hc1 hid
    rw [hc, hc1]
    simp [hid]
  · intro hc1
    rw [hc, hc1]

/-- C12: for every state, id and successful response entity `E`, after `updateComplaint(id,
data)` or `updateStatus(id, status, note)` resolves, the list entry with that id (the first
one, which is the only one when ids are distinct) is `E`, the list keeps its length and every
other entry in place, the current complaint is `E` when its id is `id`, a cache that does not
hold the id is unchanged, and the action returns `E`. -/
theorem update_replaces_by_id (s : ComplaintsState) (id : Nat) (e : Complaint) :
    (∀ data : JSObj,
        ReplacedById id e s (updateComplaint s id data (.ok e)).state ∧
          (updateComplaint s id data (.ok e)).result = .ok e) ∧
      (∀ (status : String) (note : Option String),
        ReplacedById id e s (updateStatus s id status note (.ok e)).state ∧
          (updateStatus s id status note (.ok e)).result = .ok e) :=
  ⟨fun _ => ⟨replacedById_of_update id e s _ rfl rfl, rfl⟩,
    fun _ _ => ⟨replacedById_of_update id e s _ rfl rfl, rfl⟩⟩

/-- C12 while viewing complaint 1 (list: complaints 1 and 2): `updateStatus(1, 'resolved')`
answered with the resolved complaint puts it at the head of the list and in the current
complaint, and leaves complaint 2 in place. -/
theorem update_status_witness :
    (updateStatus viewingOne 1 "resolved" none (.ok resolvedOne)).state.complaints[0]? =
        some resolvedOne ∧
      (updateStatus viewingOne 1 "resolved" none (.ok resolvedOne)).state.complaints[1]? =
        some complaintTwo ∧
      (updateStatus viewingOne 1 "resolved" none (.ok resolvedOne)).state.currentComplaint =
        some resolvedOne ∧
      (updateComplaint viewingOne 2 [("title", .str "Parking slots")]
          (.ok { complaintTwo with title := "Parking slots" })).state.currentComplaint =
        some complaintOne :=
  have h := (update_replaces_by_id viewingOne 1 resolvedOne).2 "resolved" none
  have g := (update_replaces_by_id viewingOne 2 { complaintTwo with title := "Parking slots" }).1
    [("title", .str "Parking slots")]
  ⟨h.1.2.1 0 complaintOne rfl rfl (fun j _ hj _ => absurd hj (Nat.not_lt_zero j)),
    h.1.2.2.1 1 complaintTwo rfl (Or.inl (by decide)),
    h.1.2.2.2.2.2.1 complaintOne rfl rfl,
    g.1.2.2.2.2.2.2.1 complaintOne rfl (by decide)⟩

/-! ## Complaints store: comments and shared objects -/

/-- Assigning to fields of an object that the array does not hold leaves the list cache as
it was. -/
theorem Ref.listCache_mutateAt_of_not_mem (st : Ref.Store) (f : Complaint → Complaint) (r : Nat)
    (h : r ∉ st.complaints) :
    Ref.Store.listCache { st with objects := mutateAt f st.objects r } =
      Ref.Store.listCache st := by
  unfold Ref.Store.listCache
  apply List.filterMap_congr
  intro x hx
  have hne : ¬ x = r := fun e => h (e ▸ hx)
  simp [Ref.Store.deref, getElem?_mutateAt, hne]

/-- When the current complaint is not an object of the array, a successful `addComment`
leaves the list cache unchanged. -/
theorem Ref.addComment_listCache_of_unshared (st : Ref.Store) (complaintId : Nat) (c : Comment)
    (h : ∀ r, st.currentComplaint = some r → r ∉ st.complaints) :
    Ref.Store.listCache (Ref.addComment st complaintId (.ok c)) = Ref.Store.listCache st := by
  unfold Ref.addComment
  cases hc : st.currentComplaint with
  | none => rfl
  | some cr =>
    by_cases hid : st.hasId complaintId cr = true
    · simp only [hid, if_true]
      exact Ref.listCache_mutateAt_of_not_mem st _ cr (h cr hc)
    · simp [hid]

/-- When the current complaint is not an object of the array, a successful `deleteComment`
leaves the list cache unchanged. -/
theorem Ref.deleteComment_listCache_of_unshared (st : Ref.Store) (commentId : Nat)
    (h : ∀ r, st.currentComplaint = some r → r ∉ st.complaints) :
    Ref.Store.listCache (Ref.deleteComment st commentId (.ok ())) = Ref.Store.listCache st := by
  cases hc : st.currentComplaint with
  | none => simp [Ref.deleteComment, hc]
  | some cr =>
    cases hd : st.deref cr with
    | none => simp [Ref.deleteComment, hc, hd]
    | some cur =>
      cases hcs : cur.comments with
      | none => simp [Ref.deleteComment, hc, hd, hcs]
      | some cs =>
        have := Ref.listCache_mutateAt_of_not_mem st
          (fun cur =>
            { cur with
              comments := some (cs.filter (fun c => decide (c.id ≠ commentId))),
              comments_count := some (max 0 (cur.comments_count.getD 0 - 1)) })
          cr (h cr hc)
        simpa [Ref.deleteComment, hc, hd, hcs] using this

/-- The counts of a vote reach the stored objects, shared or not: after the cache updates of
`vote` and `removeVote`, the object at the first list position with that id and the current
complaint object with that id carry the reply's counts and the new `user_vote` (one object,
when both are the same), and every other object is as it was. -/
theorem Ref.applyCounts_objects (st : Ref.Store) (id : Nat) (r : VoteCounts)
    (userVote : Option String) (x : Nat) :
    (Ref.applyCounts st id r userVote).objects[x]? =
      if ((findIndex (st.hasId id) st.complaints).bind (fun i => st.complaints[i]?) = some x) ∨
          (st.currentComplaint = some x ∧ st.hasId id x = true)
      then st.objects[x]?.map (updateCounts r userVote) else st.objects[x]? := by
  have hidem : ∀ o : Option Complaint,
      (o.map (updateCounts r userVote)).map (updateCounts r userVote) =
        o.map (updateCounts r userVote) := by
    intro o
    cases o <;> rfl
  unfold Ref.applyCounts
  simp only
  -- the objects after the list update
  have h1 : ∀ y : Nat,
      (match findIndex (st.hasId id) st.complaints with
        | some index =>
          match st.complaints[index]? with
          | some ref => mutateAt (updateCounts r userVote) st.objects ref
          | none => st.objects
        | none => st.objects)[y]? =
      if (findIndex (st.hasId id) st.complaints).bind (fun i => st.complaints[i]?) = some y
      then st.objects[y]?.map (updateCounts r userVote) else st.objects[y]? := by
    intro y
    cases findIndex (st.hasId id) st.complaints with
    | none => simp
    | some index =>
      cases hri : st.complaints[index]? with
      | none => simp [hri]
      | some ref =>
        simp only [hri, Option.bind_some, getElem?_mutateAt, Option.some.injEq]
        by_cases hy : y = ref
        · simp [hy, hri]
        · have : ¬ ref = y := fun e => hy e.symm
          simp [hy, this, hri]
  cases hc : st.currentComplaint with
  | none => simpa using h1 x
  | some cr =>
    by_cases hid : st.hasId id cr = true
    · simp only [hid, if_true, getElem?_mutateAt, h1]
      by_cases hx : x = cr
      · subst hx
        by_cases hl :
            (findIndex (st.hasId id) st.complaints).bind (fun i => st.complaints[i]?) = some x
        · simp [hl, hid, hidem]
        · simp [hl, hid]
      · have : ¬ cr = x := fun e => hx e.symm
        simp [hx, this]
    · have hf : st.hasId id cr = false := by simpa using hid
      simp only [hf, Bool.false_eq_true, if_false, h1]
      by_cases hx : cr = x
      · subst hx
        simp [hf]
      · simp [hx]

/-- A successful `addComment(complaintId, text)` on the current complaint with that id: the
current complaint reads the new comment in front of the previous ones (none when not loaded)
and a count one higher (from 0 when absent); with another id, or without a current complaint,
nothing is stored. -/
theorem Ref.addComment_currentCache (st : Ref.Store) (complaintId : Nat) (c : Comment) :
    (∀ cur : Complaint, Ref.Store.currentCache st = some cur → cur.id = complaintId →
        Ref.Store.currentCache (Ref.addComment st complaintId (.ok c)) =
          some { cur with comments := some (c :: cur.comments.getD []),
                          comments_count := some (cur.comments_count.getD 0 + 1) }) ∧
      (∀ cur : Complaint, Ref.Store.currentCache st = some cur → cur.id ≠ complaintId →
        Ref.addComment st complaintId (.ok c) = st) ∧
      (Ref.Store.currentCache st = none → Ref.addComment st complaintId (.ok c) = st) := by
  refine ⟨?_, ?_, ?_⟩
  · intro cur hcur hid
    cases hc : st.currentComplaint with
    | none => simp [Ref.Store.currentCache, hc] at hcur
    | some cr =>
      have hd : st.objects[cr]? = some cur := by
        simpa [Ref.Store.currentCache, hc, Ref.Store.deref] using hcur
      simp [Ref.addComment, hc, Ref.Store.hasId, Ref.Store.deref, hd, hid,
        Ref.Store.currentCache, getElem?_mutateAt]
  · intro cur hcur hid
    cases hc : st.currentComplaint with
    | none => simp [Ref.Store.currentCache, hc] at hcur
    | some cr =>
      have hd : st.objects[cr]? = some cur := by
        simpa [Ref.Store.currentCache, hc, Ref.Store.deref] using hcur
      simp [Ref.addComment, hc, Ref.Store.hasId, Ref.Store.deref, hd, hid]
  · intro hcur
    cases hc : st.currentComplaint with
    | none => simp [Ref.addComment, hc]
    | some cr =>
      have hd : st.objects[cr]? = none := by
        simpa [Ref.Store.currentCache, hc, Ref.Store.deref] using hcur
      simp [Ref.addComment, hc, Ref.Store.hasId, Ref.Store.deref, hd]

/-- A successful `deleteComment(commentId)` on a current complaint with loaded comments: the
current complaint reads its comments without those of that id, in their order, and the count
`max(0, previous - 1)`; when its comments are not loaded nothing is stored. -/
theorem Ref.deleteComment_currentCache (st : Ref.Store) (commentId : Nat) :
    (∀ (cur : Complaint) (cs : List Comment), Ref.Store.currentCache st = some cur →
        cur.comments = some cs →
        Ref.Store.currentCache (Ref.deleteComment st commentId (.ok ())) =
          some { cur with comments := some (cs.filter (fun c => decide (c.id ≠ commentId))),
                          comments_count := some (max 0 (cur.comments_count.getD 0 - 1)) }) ∧
      (∀ cur : Complaint, Ref.Store.currentCache st = some cur → cur.comments = none →
        Ref.deleteComment st commentId (.ok ()) = st) := by
  refine ⟨?_, ?_⟩
  · intro cur cs hcur hcs
    cases hc : st.currentComplaint with
    | none => simp [Ref.Store.currentCache, hc] at hcur
    | some cr =>
      have hd : st.objects[cr]? = some cur := by
        simpa [Ref.Store.currentCache, hc, Ref.Store.deref] using hcur
      simp [Ref.deleteComment, hc, Ref.Store.deref, hd, hcs, Ref.Store.currentCache,
        getElem?_mutateAt]
  · intro cur hcur hcs
    cases hc : st.currentComplaint with
    | none => simp [Ref.Store.currentCache, hc] at hcur
    | some cr =>
      have hd : st.objects[cr]? = some cur := by
        simpa [Ref.Store.currentCache, hc, Ref.Store.deref] using hcur
      simp [Ref.deleteComment, hc, Ref.Store.deref, hd, hcs]

/-- C13, the code at the failing input: the list is fetched (complaints 1 and 2), complaint 1
is opened, `updateStatus(1, 'resolved')` succeeds, so the list entry and the current complaint
are the one object of the reply; a successful `addComment(1, text)` then assigns `comments` and
`comments_count` of that object, and the list cache read after it differs from the list cache
read before it.  Before the update, when the two caches held two objects, the same
`addComment` left the list cache unchanged. -/
theorem addComment_changes_shared_list_entry :
    Ref.Store.listCache Ref.afterUpdate = [resolvedOne, complaintTwo] ∧
      Ref.Store.currentCache Ref.afterUpdate = some resolvedOne ∧
      Ref.afterUpdate.currentComplaint = some 3 ∧ Ref.afterUpdate.complaints = [3, 1] ∧
      Ref.Store.listCache (Ref.addComment Ref.afterUpdate 1 (.ok commentTen)) =
        [{ resolvedOne with comments := some [commentTen], comments_count := some 1 },
          complaintTwo] ∧
      Ref.Store.listCache (Ref.addComment Ref.afterUpdate 1 (.ok commentTen)) ≠
        Ref.Store.listCache Ref.afterUpdate ∧
      Ref.Store.listCache (Ref.addComment Ref.afterFetches 1 (.ok commentTen)) =
        Ref.Store.listCache Ref.afterFetches :=
  ⟨rfl, rfl, rfl, rfl, rfl, by decide, rfl⟩

/-- C14, the code at the failing input: after the list fetch and the detail fetch,
`updateComplaint(1, data)` succeeds with the complaint and its two comments, so the list entry
and the current complaint are the one object of the reply; a successful `deleteComment(10)`
then assigns `comments` and `comments_count` of that object, and the list cache read after it
differs from the list cache read before it. -/
theorem deleteComment_changes_shared_list_entry :
    Ref.Store.listCache Ref.afterUpdateWithComments = [detailOne, complaintTwo] ∧
      Ref.Store.currentCache Ref.afterUpdateWithComments = some detailOne ∧
      Ref.Store.listCache (Ref.deleteComment Ref.afterUpdateWithComments 10 (.ok ())) =
        [{ detailOne with comments := some [commentEleven], comments_count := some 1 },
          complaintTwo] ∧
      Ref.Store.listCache (Ref.deleteComment Ref.afterUpdateWithComments 10 (.ok ())) ≠
        Ref.Store.listCache Ref.afterUpdateWithComments :=
  ⟨rfl, rfl, rfl, by decide⟩

/-! ## Toast queue -/

/-- What every run on a new store keeps: the queued ids increase strictly from head to tail,
the ids returned so far increase strictly, and none exceeds the counter `toastId`. -/
theorem runToasts_invariant (ops : List ToastOp) (s : NotificationsState) (ids : List Nat)
    (hq : (s.toasts.map (fun t => t.id)).Pairwise (· < ·))
    (hqb : ∀ t ∈ s.toasts, t.id ≤ s.toastId)
    (hr : ids.Pairwise (· < ·)) (hrb : ∀ i ∈ ids, i ≤ s.toastId) :
    (((ops.foldl ToastOp.apply (s, ids)).1.toasts.map (fun t => t.id)).Pairwise (· < ·)) ∧
      (∀ t ∈ (ops.foldl ToastOp.apply (s, ids)).1.toasts,
        t.id ≤ (ops.foldl ToastOp.apply (s, ids)).1.toastId) ∧
      ((ops.foldl ToastOp.apply (s, ids)).2.Pairwise (· < ·)) ∧
      (∀ i ∈ (ops.foldl ToastOp.apply (s, ids)).2,
        i ≤ (ops.foldl ToastOp.apply (s, ids)).1.toastId) := by
  induction ops generalizing s ids with
  | nil => exact ⟨hq, hqb, hr, hrb⟩
  | cons op ops ih =>
    rw [List.foldl_cons]
    cases op with
    | showToast message type duration =>
      apply ih
      · show (List.map (fun t => t.id)
            (s.toasts ++ [{ id := s.toastId + 1, message := message, type := type }])).Pairwise
            (· < ·)
        rw [List.map_append, List.pairwise_append]
        refine ⟨hq, by simp, ?_⟩
        intro a ha b hb
        simp only [List.map_cons, List.map_nil, List.mem_singleton] at hb
        obtain ⟨t, ht, rfl⟩ := List.mem_map.mp ha
        have := hqb t ht
        omega
      · intro t ht
        show t.id ≤ s.toastId + 1
        have ht1 : t ∈ s.toasts ++ [{ id := s.toastId + 1, message := message, type := type }] :=
          ht
        rcases List.mem_append.mp ht1 with h | h
        · have := hqb t h
          omega
        · simp only [List.mem_singleton] at h
          subst h
          exact Nat.le_refl _
      · show (ids ++ [s.toastId + 1]).Pairwise (· < ·)
        rw [List.pairwise_append]
        refine ⟨hr, by simp, ?_⟩
        intro a ha b hb
        simp only [List.mem_singleton] at hb
        have := hrb a ha
        omega
      · intro i hi
        show i ≤ s.toastId + 1
        have hi1 : i ∈ ids ++ [s.toastId + 1] := hi
        rcases List.mem_append.mp hi1 with h | h
        · have := hrb i h
          omega
        · simp only [List.mem_singleton] at h
          omega
    | removeToast id =>
      apply ih
      · show (List.map (fun t => t.id)
            (s.toasts.filter (fun t => decide (t.id ≠ id)))).Pairwise (· < ·)
        exact List.Pairwise.sublist (List.Sublist.map _ (List.filter_sublist _)) hq
      · intro t ht
        have ht1 : t ∈ s.toasts.filter (fun t => decide (t.id ≠ id)) := ht
        exact hqb t (List.mem_of_mem_filter ht1)
      · exact hr
      · exact hrb

/-- Removing by id from a queue with strictly increasing ids takes out exactly the message
with that id. -/
theorem filter_ne_of_increasing (id : Nat) (pre post : List Toast) (t : Toast)
    (hq : ((pre ++ t :: post).map (fun t => t.id)).Pairwise (· < ·)) (hid : t.id = id) :
    (pre ++ t :: post).filter (fun t => decide (t.id ≠ id)) = pre ++ post := by
  rw [List.map_append, List.map_cons, List.pairwise_append, List.pairwise_cons] at hq
  obtain ⟨_, ⟨hpost, _⟩, hcross⟩ := hq
  rw [List.filter_append, List.filter_cons]
  have hpre : pre.filter (fun t => decide (t.id ≠ id)) = pre := by
    rw [List.filter_eq_self]
    intro x hx
    have := hcross x.id (List.mem_map.mpr ⟨x, hx, rfl⟩) t.id (List.mem_cons_self _ _)
    simp only [ne_eq, decide_not, Bool.not_eq_true', decide_eq_false_iff_not]
    omega
  have hpo : post.filter (fun t => decide (t.id ≠ id)) = post := by
    rw [List.filter_eq_self]
    intro x hx
    have := hpost x.id (List.mem_map.mpr ⟨x, hx, rfl⟩)
    simp only [ne_eq, decide_not, Bool.not_eq_true', decide_eq_false_iff_not]
    omega
  rw [hpre, hpo]
  simp [hid]

/-- C20: after every sequence of `showToast` and `removeToast` calls on a new store, the queued
messages have strictly increasing, hence pairwise distinct, ids and the ids returned so far
increase strictly; a further `showToast` appends exactly one message, the last of the queue,
and returns its id, which is greater than every id returned before and every queued id;
`removeToast(id)` removes exactly the message with that id and keeps the others in order,
leaves the queue unchanged when no message has that id, and is idempotent. -/
theorem toast_ids_increase_and_removal_is_idempotent (ops : List ToastOp) :
    let st := (runToasts NotificationsState.init ops).1
    let returned := (runToasts NotificationsState.init ops).2
    ((st.toasts.map (fun t => t.id)).Pairwise (· < ·)) ∧
      ((st.toasts.map (fun t => t.id)).Nodup) ∧
      (returned.Pairwise (· < ·)) ∧
      (∀ (message type : String) (duration : Int),
        (showToast st message type duration).state.toasts =
            st.toasts ++
              [{ id := (showToast st message type duration).id, message := message,
                 type := type }] ∧
          (∀ i ∈ returned, i < (showToast st message type duration).id) ∧
          (∀ t ∈ st.toasts, t.id < (showToast st message type duration).id)) ∧
      (∀ (id : Nat) (pre post : List Toast) (t : Toast), st.toasts = pre ++ t :: post →
        t.id = id → (removeToast st id).toasts = pre ++ post) ∧
      (∀ id : Nat, (∀ t ∈ st.toasts, t.id ≠ id) → removeToast st id = st) ∧
      (∀ id : Nat, removeToast (removeToast st id) id = removeToast st id) := by
  intro st returned
  have hinv := runToasts_invariant ops NotificationsState.init [] (by simp [NotificationsState.init])
    (by simp [NotificationsState.init]) List.Pairwise.nil (by simp)
  obtain ⟨hq, hqb, hr, hrb⟩ := hinv
  refine ⟨hq, ?_, hr, ?_, ?_, ?_, ?_⟩
  · exact List.Pairwise.imp (fun h => Nat.ne_of_lt h) hq
  · intro message type duration
    refine ⟨rfl, ?_, ?_⟩
    · intro i hi
      have := hrb i hi
      show i < st.toastId + 1
      exact Nat.lt_succ_of_le this
    · intro t ht
      have := hqb t ht
      show t.id < st.toastId + 1
      exact Nat.lt_succ_of_le this
  · intro id pre post t hs hid
    show st.toasts.filter (fun t => decide (t.id ≠ id)) = pre ++ post
    have hq1 : ((pre ++ t :: post).map (fun t => t.id)).Pairwise (· < ·) := by
      rw [← hs]
      exact hq
    rw [hs]
    exact filter_ne_of_increasing id pre post t hq1 hid
  · intro id habs
    have hf : st.toasts.filter (fun t => decide (t.id ≠ id)) = st.toasts := by
      rw [List.filter_eq_self]
      intro x hx
      simpa using habs x hx
    show { st with toasts := st.toasts.filter (fun t => decide (t.id ≠ id)) } = st
    rw [hf]
  · intro id
    show { removeToast st id with
        toasts := (st.toasts.filter (fun t => decide (t.id ≠ id))).filter
          (fun t => decide (t.id ≠ id)) } = removeToast st id
    rw [List.filter_filter]
    simp [removeToast]

/-- C20 at three `showToast` calls with a `removeToast(2)` in between and a repeated one at the
end: the ids returned are 1, 2, 3 and the queue holds the messages 1 and 3. -/
theorem toast_queue_witness :
    (runToasts NotificationsState.init
        [ToastOp.showToast "Saved" "success" 4000, ToastOp.showToast "Failed" "error" 6000,
          ToastOp.removeToast 2, ToastOp.showToast "Pinned" "info" 0,
          ToastOp.removeToast 2]).2 = [1, 2, 3] ∧
      ((runToasts NotificationsState.init
        [ToastOp.showToast "Saved" "success" 4000, ToastOp.showToast "Failed" "error" 6000,
          ToastOp.removeToast 2, ToastOp.showToast "Pinned" "info" 0,
          ToastOp.removeToast 2]).1.toasts.map (fun t => t.id)) = [1, 3] ∧
      ((runToasts NotificationsState.init
        [ToastOp.showToast "Saved" "success" 4000, ToastOp.showToast "Failed" "error" 6000,
          ToastOp.removeToast 2, ToastOp.showToast "Pinned" "info" 0,
          ToastOp.removeToast 2]).1.toasts.map (fun t => t.id)).Nodup :=
  have h := toast_ids_increase_and_removal_is_idempotent
    [ToastOp.showToast "Saved" "success" 4000, ToastOp.showToast "Failed" "error" 6000,
      ToastOp.removeToast 2, ToastOp.showToast "Pinned" "info" 0, ToastOp.removeToast 2]
  ⟨by decide, by decide, h.2.1⟩

/-! ## Session store and transport client -/

/-- A 401 outside the login and register endpoints: the interceptor logs out and then pushes
the named route `login`. -/
theorem onResponseError_unauthorized (w : Session) (url : String) (err : ApiError)
    (r : ErrResponse) (hr : err.response = some r) (hs : r.status = 401)
    (hu : isAuthEndpoint url = false) :
    onResponseError w url err =
      { auth := { w.auth with token := none, user := none, error := none }
        storage := { access_token := none, refresh_token := none }
        pushes := w.pushes ++ [.path "/login", .named "login" []] } := by
  simp [onResponseError, hr, hs, hu, logout]

/-- Every other rejection leaves the session as it was. -/
theorem onResponseError_unchanged (w : Session) (url : String) (err : ApiError)
    (h : ¬ ((∃ r, err.response = some r ∧ r.status = 401) ∧ isAuthEndpoint url = false)) :
    onResponseError w url err = w := by
  unfold onResponseError
  cases hr : err.response with
  | none => rfl
  | some r =>
    by_cases hs : r.status = 401
    · by_cases hu : isAuthEndpoint url = true
      · simp [hs, hu]
      · exact absurd ⟨⟨r, hr, hs⟩, by simpa using hu⟩ h
    · simp [hs]

/-- C15: when a request to a path that is not a login or register endpoint is answered with
status 401 while the session is authenticated, the session ends anonymous (token and user are
`null`, `isAuthenticated` is false, both stored credentials are removed) and exactly one
navigation to the login view is performed: the interceptor's run calls `router.push` twice,
in `logout()` with `'/login'` and then with the named route `login`, both resolving to the
login route; the second call supersedes the first, and the guard lets the now anonymous
session through to the login route. -/
theorem unauthorized_ends_session_and_navigates_once (w : Session) (url : String)
    (err : ApiError) (r : ErrResponse) (ha : isAuthenticated w.auth = true)
    (hr : err.response = some r) (hs : r.status = 401) (hu : isAuthEndpoint url = false) :
    isAuthenticated w.auth = true ∧
      (onResponseError w url err).auth.token = none ∧
      (onResponseError w url err).auth.user = none ∧
      isAuthenticated (onResponseError w url err).auth = false ∧
      (onResponseError w url err).storage = { access_token := none, refresh_token := none } ∧
      (onResponseError w url err).pushes =
        w.pushes ++ [NavTarget.path "/login", NavTarget.named "login" []] ∧
      (∀ t ∈ (onResponseError w url err).pushes.drop w.pushes.length,
        resolveLogin t = some (loginRoute [])) ∧
      settledNavigations ((onResponseError w url err).pushes.drop w.pushes.length) =
        [NavTarget.named "login" []] ∧
      (settledNavigations ((onResponseError w url err).pushes.drop w.pushes.length)).length =
        1 ∧
      beforeEach (onResponseError w url err).auth (loginRoute []) = some Next.proceed := by
  rw [onResponseError_unauthorized w url err r hr hs hu]
  have hdrop : (w.pushes ++ [NavTarget.path "/login", NavTarget.named "login" []]).drop
      w.pushes.length = [NavTarget.path "/login", NavTarget.named "login" []] := by
    simp
  refine ⟨ha, rfl, rfl, ?_, rfl, rfl, ?_, ?_, ?_, ?_⟩
  · simp [isAuthenticated, truthyString]
  · intro t ht
    rw [hdrop] at ht
    simp only [List.mem_cons, List.mem_singleton, List.not_mem_nil, or_false] at ht
    rcases ht with rfl | rfl <;> simp [resolveLogin]
  · rw [hdrop]
    rfl
  · rw [hdrop]
    rfl
  · simp [beforeEach, loginRoute, isAuthenticated, truthyString]

/-- C15 at the session after a login and a request to `/complaints` answered with status 401:
the session ends anonymous, and of the two `router.push` calls the one performed is the
navigation to the named route `login`. -/
theorem unauthorized_once_witness :
    isAuthenticated signedIn.auth = true ∧ isAuthEndpoint "/complaints" = false ∧
      (onResponseError signedIn "/complaints" unauthorized).auth.token = none ∧
      (onResponseError signedIn "/complaints" unauthorized).auth.user = none ∧
      (onResponseError signedIn "/complaints" unauthorized).storage =
        { access_token := none, refresh_token := none } ∧
      settledNavigations
          ((onResponseError signedIn "/complaints" unauthorized).pushes.drop
            signedIn.pushes.length) = [NavTarget.named "login" []] :=
  have h := unauthorized_ends_session_and_navigates_once signedIn "/complaints" unauthorized
    _ (by decide) rfl rfl (by decide)
  ⟨h.1, by decide, h.2.1, h.2.2.1, h.2.2.2.2.1, h.2.2.2.2.2.2.2.1⟩

/-- C16, the code at the failing input: signed in and viewing `/complaints/5`, the request
`/complaints/5` is answered with status 401.  Neither `router.push` call of the transport
client carries a destination; the guard lets the anonymous session through to the login route
as it is, so the query that `login()` reads has no `redirect`, and the next successful login
pushes `'/dashboard'`, not `'/complaints/5'`.  The guard, for an anonymous visit of the same
page, does attach `redirect: '/complaints/5'`, and `login()` would follow it. -/
theorem unauthorized_navigation_drops_destination :
    (onResponseError signedIn "/complaints/5" unauthorized).pushes =
        signedIn.pushes ++ [NavTarget.path "/login", NavTarget.named "login" []] ∧
      beforeEach (onResponseError signedIn "/complaints/5" unauthorized).auth (loginRoute []) =
        some Next.proceed ∧
      loginDestination (loginRoute []).query = NavTarget.path "/dashboard" ∧
      (login (onResponseError signedIn "/complaints/5" unauthorized) [] (loginRoute []).query
          (.ok loginReply)).state.pushes.getLast? = some (NavTarget.path "/dashboard") ∧
      beforeEach (onResponseError signedIn "/complaints/5" unauthorized).auth
          (complaintDetailRoute 5) =
        some (Next.redirect (NavTarget.named "login" [("redirect", .str "/complaints/5")])) ∧
      loginDestination [("redirect", .str "/complaints/5")] = NavTarget.path "/complaints/5" := by
  have h := onResponseError_unauthorized signedIn "/complaints/5" unauthorized _ rfl rfl
    (by decide)
  rw [h]
  exact ⟨rfl, by decide, by decide, by decide, by decide, by decide⟩

/-- C17, the code at the failing input: on a page load with both credentials stored, the
profile request of `initializeAuth()` fails without any response (network down or timeout).  The interceptor
leaves the session as it was, but the `catch` block of `initializeAuth` calls `logout()`:
the token and both stored credentials are cleared and `'/login'` is pushed, though no 401 was
received. -/
theorem initializeAuth_network_failure_logs_out :
    returningVisitor.auth.token = some "token-1" ∧
      returningVisitor.storage =
        { access_token := some "token-1", refresh_token := some "refresh-1" } ∧
      onResponseError returningVisitor "/auth/profile" ⟨none⟩ = returningVisitor ∧
      (initializeAuth returningVisitor (.error ⟨none⟩)).state.auth.token = none ∧
      (initializeAuth returningVisitor (.error ⟨none⟩)).state.storage =
        { access_token := none, refresh_token := none } ∧
      (initializeAuth returningVisitor (.error ⟨none⟩)).state.pushes =
        [NavTarget.path "/login"] :=
  ⟨rfl, rfl, rfl, by decide, by decide, by decide⟩

/-- The forced-logout policy as the code has it: the transport client forces logout only for
a 401 outside the login and register endpoints.  For every failed request the response interceptor clears the session
(token, user, both stored credentials) when a response was received with status 401 and the
request path is not a login or register endpoint, and leaves the session unchanged otherwise:
so for a response with status 403, 404, 429 or 500, for a 401 from login or register and for
a failure with no response; in every case the failure is propagated to the caller.  In
addition `initializeAuth()`, called with a token, clears the session whenever its profile
request fails, whatever the failure. -/
theorem forced_logout_policy (w : Session) (url : String) (err : ApiError) :
    (((∃ r, err.response = some r ∧ r.status = 401) ∧ isAuthEndpoint url = false) →
        (onResponseError w url err).auth.token = none ∧
          (onResponseError w url err).auth.user = none ∧
          (onResponseError w url err).storage =
            { access_token := none, refresh_token := none }) ∧
      ((¬ ((∃ r, err.response = some r ∧ r.status = 401) ∧ isAuthEndpoint url = false)) →
        onResponseError w url err = w) ∧
      (∀ r, err.response = some r → r.status ∈ [403, 404, 429, 500] →
        onResponseError w url err = w) ∧
      (isAuthEndpoint url = true → onResponseError w url err = w) ∧
      (err.response = none → onResponseError w url err = w) ∧
      (∀ ρ : Type, (apiCall w url (Except.error err : Except ApiError ρ)).2 = .error err) ∧
      (isAuthEndpoint "/auth/login" = true ∧ isAuthEndpoint "/auth/register" = true) ∧
      (truthyString w.auth.token = true →
        (initializeAuth w (.error err)).state.auth.token = none ∧
          (initializeAuth w (.error err)).state.auth.user = none ∧
          (initializeAuth w (.error err)).state.storage =
            { access_token := none, refresh_token := none }) := by
  refine ⟨?_, onResponseError_unchanged w url err, ?_, ?_, ?_, fun _ => rfl,
    ⟨by decide, by decide⟩, ?_⟩
  · rintro ⟨⟨r, hr, hs⟩, hu⟩
    rw [onResponseError_unauthorized w url err r hr hs hu]
    exact ⟨rfl, rfl, rfl⟩
  · intro r hr hs
    apply onResponseError_unchanged
    rintro ⟨⟨r1, hr1, hs1⟩, _⟩
    rw [hr] at hr1
    cases hr1
    rw [hs1] at hs
    simp at hs
  · intro hu
    apply onResponseError_unchanged
    rintro ⟨_, hu1⟩
    rw [hu] at hu1
    cases hu1
  · intro hr
    apply onResponseError_unchanged
    rintro ⟨⟨r1, hr1, _⟩, _⟩
    rw [hr] at hr1
    cases hr1
  · intro ht
    simp [initializeAuth, ht, apiCall, logout]

/-- The interceptor at the signed-in session: a 500 on `/complaints` and a 401 on
`/auth/login` leave the session as it is; a 401 on `/complaints` clears it. -/
theorem forced_logout_witness :
    onResponseError signedIn "/complaints" ⟨some ⟨500, none⟩⟩ = signedIn ∧
      onResponseError signedIn "/auth/login" unauthorized = signedIn ∧
      (onResponseError signedIn "/complaints" unauthorized).auth.token = none ∧
      (onResponseError signedIn "/complaints" unauthorized).storage =
        { access_token := none, refresh_token := none } :=
  have h := forced_logout_policy signedIn "/complaints" unauthorized
  have h1 := h.1 ⟨⟨_, rfl, rfl⟩, by decide⟩
  ⟨(forced_logout_policy signedIn "/complaints" ⟨some ⟨500, none⟩⟩).2.2.1 _ rfl (by decide),
    (forced_logout_policy signedIn "/auth/login" unauthorized).2.2.2.1 (by decide),
    h1.1, h1.2.2⟩

/-- The roles test yields a boolean exactly when `roles` is an array or a string, and then
it does so for every role. -/
theorem rolesIncludes_bool (user : Option JSObj) (role other : String) (b : Bool)
    (h : rolesIncludes user role = some (.bool b)) :
    ∃ c : Bool, rolesIncludes user other = some (.bool c) := by
  unfold rolesIncludes at h ⊢
  cases user with
  | none => simp at h
  | some u =>
    simp only at h ⊢
    cases hr : JSObj.read u "roles" <;> rw [hr] at h <;> simp at h ⊢

/-- C18: in every session state, `isAdmin` true implies `isSecretary` true and `isSecretary`
true implies `isCommittee` true; without a user, or with a user without `roles`, the three
flags are `undefined`; `karmaScore` is the user's `karma_score` when it is a number or any
truthy value, and 0 when there is no user or the field is absent. -/
theorem role_flags_and_karma (a : AuthState) :
    (isAdmin a = some (.bool true) → isSecretary a = some (.bool true)) ∧
      (isSecretary a = some (.bool true) → isCommittee a = some (.bool true)) ∧
      (a.user = none →
        isAdmin a = some .undefined ∧ isSecretary a = some .undefined ∧
          isCommittee a = some .undefined ∧ karmaScore a = .num 0) ∧
      (∀ u : JSObj, a.user = some u → JSObj.get u "roles" = none →
        isAdmin a = some .undefined ∧ isSecretary a = some .undefined ∧
          isCommittee a = some .undefined) ∧
      (∀ (u : JSObj) (n : Int), a.user = some u → JSObj.get u "karma_score" = some (.num n) →
        karmaScore a = .num n) ∧
      (∀ (u : JSObj) (v : JSVal), a.user = some u → JSObj.get u "karma_score" = some v →
        v.truthy = true → karmaScore a = v) ∧
      (∀ u : JSObj, a.user = some u → JSObj.get u "karma_score" = none →
        karmaScore a = .num 0) := by
  refine ⟨?_, ?_, ?_, ?_, ?_, ?_, ?_⟩
  · intro h
    obtain ⟨c, hc⟩ := rolesIncludes_bool a.user "admin" "secretary" true h
    unfold isSecretary
    rw [hc]
    cases c with
    | true => simp [JSVal.truthy]
    | false => simpa [JSVal.truthy] using h
  · intro h
    have hb : ∃ b : Bool, rolesIncludes a.user "secretary" = some (.bool b) := by
      unfold isSecretary at h
      cases hs : rolesIncludes a.user "secretary" with
      | none => simp [hs] at h
      | some v =>
        rw [hs] at h
        by_cases hv : v.truthy = true
        · simp only [hv, if_true, Option.some.injEq] at h
          exact ⟨true, by rw [h]⟩
        · simp only [hv, Bool.false_eq_true, if_false] at h
          obtain ⟨c, hc⟩ := rolesIncludes_bool a.user "admin" "secretary" true h
          rw [hs] at hc
          exact ⟨c, hc⟩
    obtain ⟨b, hb⟩ := hb
    obtain ⟨c, hc⟩ := rolesIncludes_bool a.user "secretary" "committee_member" b hb
    unfold isCommittee
    rw [hc]
    cases c with
    | true => simp [JSVal.truthy]
    | false => simpa [JSVal.truthy] using h
  · intro hu
    simp [isAdmin, isSecretary, isCommittee, karmaScore, rolesIncludes, hu, JSVal.truthy]
  · intro u hu hr
    simp [isAdmin, isSecretary, isCommittee, rolesIncludes, hu, JSObj.read, hr, JSVal.truthy]
  · intro u n hu hk
    by_cases hn : n = 0
    · simp [karmaScore, hu, JSObj.read, hk, JSVal.truthy, hn]
    · simp [karmaScore, hu, JSObj.read, hk, JSVal.truthy, hn]
  · intro u v hu hk hv
    simp [karmaScore, hu, JSObj.read, hk, hv]
  · intro u hu hk
    simp [karmaScore, hu, JSObj.read, hk, JSVal.truthy]

/-- C18 at an admin with karma 12: the three flags are true and `karmaScore` is 12; at the
signed-in resident, who has no `karma_score` field, `karmaScore` is 0. -/
theorem role_flags_witness :
    isSecretary { user := some [("roles", .arr ["admin"]), ("karma_score", .num 12)],
                  token := some "token-1", loading := false, error := none } =
        some (.bool true) ∧
      isCommittee { user := some [("roles", .arr ["admin"]), ("karma_score", .num 12)],
                    token := some "token-1", loading := false, error := none } =
        some (.bool true) ∧
      karmaScore { user := some [("roles", .arr ["admin"]), ("karma_score", .num 12)],
                   token := some "token-1", loading := false, error := none } = .num 12 ∧
      karmaScore signedIn.auth = .num 0 :=
  have h := role_flags_and_karma
    { user := some [("roles", .arr ["admin"]), ("karma_score", .num 12)],
      token := some "token-1", loading := false, error := none }
  have hs := h.1 (by decide)
  ⟨hs, h.2.1 hs, h.2.2.2.2.1 _ 12 rfl (by decide),
    (role_flags_and_karma signedIn.auth).2.2.2.2.2.2 _ rfl (by decide)⟩

/-- A successful `updateProfile` merges the reply into the identity: every key of the reply
reads the reply's value, every other key reads what it read before. -/
theorem updateProfile_merges (w : Session) (data r : JSObj) (k : String) :
    JSObj.get ((updateProfile w data (.ok r)).state.auth.user.getD []) k =
      match JSObj.get r k with
      | some v => some v
      | none => JSObj.get (w.auth.user.getD []) k := by
  show JSObj.get (JSObj.spread (JSObj.spread [] (w.auth.user.getD [])) r) k = _
  rw [JSObj.get_spread, JSObj.get_spread]
  cases JSObj.get r k with
  | some v => rfl
  | none =>
    cases JSObj.get (w.auth.user.getD []) k with
    | some v => rfl
    | none => rfl

/-- C19, the code at the failing input: the identity after login holds the society attached
by `login` (`society: societyData`); the profile reply has the user's own fields and no
`society`.  `updateProfile` answered with it keeps the society, but `refreshProfile` answered
with it assigns the reply itself to `user.value`: the identity is replaced wholesale, the
`society` field is gone and the getter `society` reads `null`. -/
theorem refreshProfile_replaces_identity :
    JSObj.get (signedIn.auth.user.getD []) "society" = some (.object 7) ∧
      JSObj.get profileReply "society" = none ∧
      JSObj.get ((updateProfile signedIn [("name", .str "Asha K")]
          (.ok profileReply)).state.auth.user.getD []) "society" = some (.object 7) ∧
      (refreshProfile signedIn (.ok profileReply)).state.auth.user = some profileReply ∧
      JSObj.get ((refreshProfile signedIn (.ok profileReply)).state.auth.user.getD [])
          "society" = none ∧
      society signedIn.auth = .object 7 ∧
      society (refreshProfile signedIn (.ok profileReply)).state.auth = .null :=
  ⟨by decide, by decide, by decide, rfl, by decide, by decide, by decide⟩

/-! ## Complaints store: deleting a comment that is not cached -/

/-- Filtering out an id that no loaded comment has keeps the sequence. -/
theorem filter_comments_of_absent (commentId : Nat) (cs : List Comment)
    (h : ∀ c ∈ cs, c.id ≠ commentId) :
    cs.filter (fun c => decide (c.id ≠ commentId)) = cs := by
  rw [List.filter_eq_self]
  intro c hc
  simpa using h c hc

/-- C21: `deleteComment` does not check that the comment was cached.  In every state whose
current complaint has loaded comments none of which has id `commentId`, a successful
`deleteComment(commentId)` leaves the comment sequence as it was and sets `comments_count` to
`max(0, previous - 1)`: one lower when it was positive, so that `comments_count` minus the
number of loaded comments is not preserved; such a state exists (complaint 1 opened with its
comments 10 and 11, `deleteComment(99)`).  When the current complaint's comments are not
loaded, a successful `deleteComment` changes neither `comments` nor `comments_count`: the
whole state is unchanged. -/
theorem deleteComment_lowers_count_without_cached_comment (s : ComplaintsState)
    (commentId : Nat) :
    (∀ (cur : Complaint) (cs : List Comment), s.currentComplaint = some cur →
        cur.comments = some cs → (∀ c ∈ cs, c.id ≠ commentId) →
        (deleteComment s commentId (.ok ())).result = .ok () ∧
          (deleteComment s commentId (.ok ())).state.currentComplaint =
            some { cur with comments_count := some (max 0 (cur.comments_count.getD 0 - 1)) } ∧
          (∀ n : Int, cur.comments_count = some n → 0 < n →
            (deleteComment s commentId (.ok ())).state.currentComplaint =
                some { cur with comments_count := some (n - 1) } ∧
              commentDrift { cur with comments_count := some (n - 1) } = commentDrift cur - 1 ∧
              commentDrift { cur with comments_count := some (n - 1) } ≠ commentDrift cur)) ∧
      (∀ cur : Complaint, s.currentComplaint = some cur → cur.comments = none →
        (deleteComment s commentId (.ok ())).result = .ok () ∧
          (deleteComment s commentId (.ok ())).state = s) ∧
      (∃ (t : ComplaintsState) (id : Nat) (cur after : Complaint) (cs : List Comment),
        t.currentComplaint = some cur ∧ cur.comments = some cs ∧ (∀ c ∈ cs, c.id ≠ id) ∧
          0 < cur.comments_count.getD 0 ∧
          (deleteComment t id (.ok ())).state.currentComplaint = some after ∧
          after.comments = some cs ∧
          after.comments_count = some (cur.comments_count.getD 0 - 1) ∧
          commentDrift after ≠ commentDrift cur) := by
  have hstate : ∀ (cur : Complaint) (cs : List Comment), s.currentComplaint = some cur →
      cur.comments = some cs → (∀ c ∈ cs, c.id ≠ commentId) →
      (deleteComment s commentId (.ok ())).state.currentComplaint =
        some { cur with comments_count := some (max 0 (cur.comments_count.getD 0 - 1)) } := by
    intro cur cs hcur hcs habs
    have hf := filter_comments_of_absent commentId cs habs
    simp only [deleteComment, hcur, hcs]
    rw [hf, ← hcs]
  refine ⟨?_, ?_, ?_⟩
  · intro cur cs hcur hcs habs
    refine ⟨rfl, hstate cur cs hcur hcs habs, ?_⟩
    intro n hn hpos
    have hmax : max 0 (cur.comments_count.getD 0 - 1) = n - 1 := by
      rw [hn, Option.getD_some]
      exact max_eq_right (by omega)
    refine ⟨?_, ?_, ?_⟩
    · rw [hstate cur cs hcur hcs habs, hmax]
    · simp only [commentDrift, hn, Option.getD_some]
      omega
    · simp only [commentDrift, hn, Option.getD_some]
      omega
  · intro cur hcur hcs
    refine ⟨rfl, ?_⟩
    simp only [deleteComment, hcur, hcs]
    cases s
    simp_all
  · refine ⟨readingOne, 99, detailOne,
      { detailOne with comments_count := some 1 }, [commentTen, commentEleven],
      rfl, rfl, by decide, by decide, rfl, rfl, rfl, by decide⟩

/-- C21 at the store where complaint 1 is open with its comments 10 and 11 and
`comments_count` 2: a successful `deleteComment(99)` keeps both comments and lowers the count to
1, so the count minus the number of loaded comments goes from 0 to -1; and while viewing
complaint 1 without loaded comments, `deleteComment(99)` changes nothing. -/
theorem deleteComment_uncached_witness :
    (deleteComment readingOne 99 (.ok ())).state.currentComplaint =
        some { detailOne with comments_count := some 1 } ∧
      commentDrift detailOne = 0 ∧
      commentDrift { detailOne with comments_count := some (2 - 1) } = 0 - 1 ∧
      (deleteComment viewingOne 99 (.ok ())).state = viewingOne :=
  have h := deleteComment_lowers_count_without_cached_comment readingOne 99
  have h1 := (h.1 detailOne [commentTen, commentEleven] rfl rfl (by decide)).2.2 2 rfl
    (by decide)
  have g := (deleteComment_lowers_count_without_cached_comment viewingOne 99).2.1
    complaintOne rfl rfl
  ⟨h1.1, by decide, h1.2.1.trans (by decide), g.2⟩

end Padosi
